import Mathlib

/-!
Verification of the CMMN-parser repository (dual-format CMMN parsing library).

This file shallowly embeds the data model and the parsing/serialization
operations of the repository:

* `Json` models a decoded Python JSON value (the dictionaries passed around
  by the parsers).  Python `dict.get(k)` conflates an absent key with a
  stored `None`; `Json.get` mirrors that, while `Json.hasKey` mirrors the
  `"k" in data` membership test.
* `XmlElem` models an `ElementTree`/`lxml` element (tag, attributes, text,
  children) as produced by the XML tokenizer; the tokenizer itself is
  external, so functions taking its output receive an
  `Except String XmlElem` (a syntax failure or a well-formed tree).
* The models of `cmmn_parser/models.py` keep every scalar dataclass field as
  a raw `Json` value, because Python stores whatever value the document
  supplied without coercion.
-/

/-- A decoded Python/JSON value.  Numbers are modelled as integers (the CMMN
schema uses only strings, booleans, arrays and objects; no claim involves
floats).  Objects are association lists in insertion order. -/
inductive Json where
  | null
  | bool (tv : Bool)
  | num (i : Int)
  | str (s : String)
  | arr (items : List Json)
  | obj (entries : List (String × Json))

/-- First value stored under key `k` in an association list. -/
def Json.lookupKey : List (String × Json) → String → Option Json
  | [], _ => none
  | (k', v) :: rest, k => if k' = k then some v else Json.lookupKey rest k

/-- First value stored under key `k`, if any (Python dict keys are unique, so
first match is the dict's entry). -/
def Json.find : Json → String → Option Json
  | .obj kvs, k => Json.lookupKey kvs k
  | _, _ => none

/-- Python `data.get(k, default)`: the stored value (even if it is `None`)
when the key is present, otherwise the default. -/
def Json.getD (j : Json) (k : String) (default : Json) : Json :=
  match j.find k with
  | some v => v
  | none => default

/-- Python `data.get(k)` (default `None`). -/
def Json.get (j : Json) (k : String) : Json :=
  j.getD k .null

/-- Python `"k" in data`. -/
def Json.hasKey (j : Json) (k : String) : Bool :=
  (j.find k).isSome

/-- Python `value == "s"` for a decoded JSON value: true exactly when the
value is that string. -/
def Json.eqStr (j : Json) (s : String) : Bool :=
  match j with
  | .str t => t = s
  | _ => false

/-- Python truthiness of a decoded JSON value (used by `if value:` checks). -/
def Json.truthy : Json → Bool
  | .null => false
  | .bool b => b
  | .num n => n ≠ 0
  | .str s => s ≠ ""
  | .arr xs => !xs.isEmpty
  | .obj kvs => !kvs.isEmpty

/-- An optional string attribute as the Python value it becomes (`None` or
the string). -/
def optStr : Option String → Json
  | none => .null
  | some s => .str s

/-- Errors a parse can surface, mirroring the repository's exception classes
(`CMMNParsingError`, `CMMNValidationError`, `CMMNFileError` from
`exceptions.py`, `CMMNParseError` from `parser.py`) plus the Python built-in
exceptions that escape uncaught (`KeyError`, `TypeError`). -/
inductive PyErr where
  | cmmnParsingError (msg : String)
  | cmmnValidationError (msg : String)
  | cmmnFileError (msg : String)
  | cmmnParseError (msg : String)
  | keyError (key : String)
  | typeError (msg : String)
deriving DecidableEq

/-- An XML element-tree node: tag (with `\x7buri\x7d` namespace marker, as
ElementTree/lxml report it), attributes in document order, text content, and
child elements in document order. -/
inductive XmlElem where
  | mk (tag : String) (attrs : List (String × String)) (text : Option String)
      (children : List XmlElem)

def XmlElem.tag : XmlElem → String
  | .mk t _ _ _ => t

def XmlElem.attrs : XmlElem → List (String × String)
  | .mk _ a _ _ => a

def XmlElem.text : XmlElem → Option String
  | .mk _ _ t _ => t

def XmlElem.children : XmlElem → List XmlElem
  | .mk _ _ _ c => c

/-- Attribute lookup, `element.get(k)`. -/
def XmlElem.get (el : XmlElem) (k : String) : Option String :=
  (el.attrs.find? (fun kv => kv.1 = k)).map (·.2)

/-- Attribute lookup with default, `element.get(k, d)`. -/
def XmlElem.getD (el : XmlElem) (k d : String) : String :=
  match el.get k with
  | some v => v
  | none => d

/-- Whether `text` begins with `pat`, by characters (defined from scratch so
that proofs and witnesses reduce). -/
def beginsWith : List Char → List Char → Bool
  | _, [] => true
  | [], _ :: _ => false
  | c :: cs, p :: ps => c == p && beginsWith cs ps

/-- Python `s.startswith(pat)`. -/
def pyStartsWith (s pat : String) : Bool :=
  beginsWith s.data pat.data

/-- Python `s.endswith(pat)`. -/
def pyEndsWith (s pat : String) : Bool :=
  beginsWith s.data.reverse pat.data.reverse

/-- Python `s.strip()`: drop leading and trailing whitespace. -/
def pyStrip (s : String) : String :=
  String.mk
    (((s.data.dropWhile Char.isWhitespace).reverse.dropWhile
        Char.isWhitespace).reverse)

/-- Python `s.split()` with no separator: split on whitespace runs, dropping
empty pieces. -/
def pySplit (s : String) : List String :=
  (s.split (fun c => c.isWhitespace)).filter (fun p => p ≠ "")

/-- Python `str.lower()` (ASCII case folding suffices for the attribute
values compared here). -/
def pyLower (s : String) : String :=
  s.toLower

/-- Drop everything up to and including the first `\x7d` of a tag:
`tag.split("\x7d", 1)[1]`. -/
def dropThroughBrace : List Char → List Char
  | [] => []
  | c :: cs => if c = '}' then cs else dropThroughBrace cs

/-- Namespace stripping of `XMLParser._strip_namespace`: if the tag contains
`\x7d`, keep only what follows the first one. -/
def stripNamespace (tag : String) : String :=
  if tag.data.any (fun c => c = '}') then String.mk (dropThroughBrace tag.data)
  else tag

/-! ### Node model of `cmmn_parser/models.py` (the `CMMNDefinitions` family)

Scalar dataclass fields hold raw `Json` values (Python performs no coercion);
fields never assigned by a parser keep their dataclass default (`None`,
i.e. `Json.null`, or an empty list). -/

/-- `models.Import` (fields `id`/`name`/`description` inherited from
`CMMNElement`; `namespace` is spelled `namespace_val` because `namespace` is
a Lean keyword). -/
structure Import where
  id : Json
  name : Json
  description : Json
  namespace_val : Json
  location : Json
  import_type : Json

/-- `models.CaseFileItemDefinition`. -/
structure CaseFileItemDefinition where
  id : Json
  name : Json
  description : Json
  structure_ref : Json
  definitive_property : Json

/-- `models.PlanItem`. -/
structure PlanItem where
  id : Json
  name : Json
  description : Json
  definition_ref : Json
  entry_criteria : Json
  exit_criteria : Json

/-- `models.Milestone`. -/
structure Milestone where
  id : Json
  name : Json
  description : Json

/-- The fields of `models.Task` shared by every task variant. -/
structure TaskBase where
  id : Json
  name : Json
  description : Json
  is_blocking : Json
  task_type : Json

/-- `models.Task` and its subclasses as a closed sum (named `CmmnTask`
because `Task` already exists in Lean core): the constructor is the runtime
class (`isinstance` dispatch inspects it), payloads are the
subclass-specific fields. -/
inductive CmmnTask where
  | base (b : TaskBase)
  | human (b : TaskBase) (performer form_key : Json)
  | process (b : TaskBase) (process_ref : Json)
  | caseTask (b : TaskBase) (case_ref : Json)
  | decision (b : TaskBase) (decision_ref : Json)

/-- `models.Sentry`. -/
structure Sentry where
  id : Json
  name : Json
  description : Json
  on_part : Json
  if_part : Json

/-- `models.Stage`. -/
structure Stage where
  id : Json
  name : Json
  description : Json
  auto_complete : Json
  plan_items : List PlanItem

/-- `models.CasePlanModel`. -/
structure CasePlanModel where
  id : Json
  name : Json
  description : Json
  auto_complete : Json
  plan_items : List PlanItem
  sentries : List Sentry
  stages : List Stage
  tasks : List CmmnTask
  milestones : List Milestone

/-- `models.CaseFileModel` (`case_file_items` is a plain list of strings in
this model, kept as raw `Json`). -/
structure CaseFileModel where
  id : Json
  name : Json
  description : Json
  case_file_items : Json

/-- `models.Case`. -/
structure Case where
  id : Json
  name : Json
  description : Json
  case_plan_model : Option CasePlanModel
  case_file_model : Option CaseFileModel

/-- `models.Process`. -/
structure Process where
  id : Json
  name : Json
  description : Json
  is_executable : Json
  implementation_type : Json

/-- `models.Decision`. -/
structure Decision where
  id : Json
  name : Json
  description : Json
  decision_logic : Json

/-- `models.CMMNDefinitions` (the root).  `extension_elements` holds the raw
`elements` mapping of `models.ExtensionElements` when present. -/
structure CMMNDefinitions where
  id : Json
  name : Json
  target_namespace : Json
  expression_language : Json
  exporter : Json
  exporter_version : Json
  author : Json
  creation_date : Json
  imports : List Import
  case_file_item_definitions : List CaseFileItemDefinition
  cases : List Case
  processes : List Process
  decisions : List Decision
  extension_elements : Option Json

/-! ### `cmmn_parser/xml_parser.py` — `XMLParser`

Each dispatch loop appends the children matching a tag, in document order,
to the corresponding collection; that is embedded as a filter of the child
list by the (namespace-stripped) tag.  A loop that assigns (rather than
appends) keeps the last matching child. -/

/-- Python dict assignment `d[k] = v`: replace in place if present, else
append. -/
def dictInsert (kvs : List (String × Json)) (k : String) (v : Json) :
    List (String × Json) :=
  match kvs with
  | [] => [(k, v)]
  | (k', v') :: rest =>
    if k' = k then (k, v) :: rest else (k', v') :: dictInsert rest k v

/-- Grouping `children[tag].append(converted)` with first-use insertion
order of tags. -/
def groupAdd (gs : List (String × List Json)) (k : String) (v : Json) :
    List (String × List Json) :=
  match gs with
  | [] => [(k, [v])]
  | (k', vs) :: rest =>
    if k' = k then (k', vs ++ [v]) :: rest else (k', vs) :: groupAdd rest k v

/-- Children of `el` whose namespace-stripped tag is `t`, in document
order. -/
def childrenTagged (el : XmlElem) (t : String) : List XmlElem :=
  el.children.filter (fun c => stripNamespace c.tag = t)

/-- `XMLParser._element_to_dict`: attributes become keys, non-blank text a
`"text"` key, children a `"children"` mapping from tag to the list of
recursively converted child dictionaries. -/
def XMLParser.element_to_dict : XmlElem → Json
  | .mk _ attrs text children =>
    let base : List (String × Json) :=
      attrs.foldl (fun acc kv => dictInsert acc kv.1 (Json.str kv.2)) []
    let withText : List (String × Json) :=
      match text with
      | some t =>
        if t ≠ "" ∧ t.trim ≠ "" then dictInsert base "text" (Json.str t.trim)
        else base
      | none => base
    let groups : List (String × List Json) :=
      children.attach.foldl
        (fun acc c =>
          groupAdd acc (stripNamespace c.1.tag) (XMLParser.element_to_dict c.1))
        []
    let withChildren : List (String × Json) :=
      if groups.isEmpty then withText
      else
        dictInsert withText "children"
          (Json.obj (groups.map (fun g => (g.1, Json.arr g.2))))
    Json.obj withChildren
termination_by el => sizeOf el
decreasing_by
  have h := List.sizeOf_lt_of_mem c.2
  simp only [XmlElem.mk.sizeOf_spec]
  omega

/-- `XMLParser._parse_extension_elements`: the `elements` dict mapping each
child's stripped tag to its generic conversion (later duplicates
overwrite). -/
def XMLParser.parse_extension_elements (el : XmlElem) : Json :=
  Json.obj
    (el.children.foldl
      (fun acc c =>
        dictInsert acc (stripNamespace c.tag) (XMLParser.element_to_dict c))
      [])

/-- `XMLParser._parse_import`. -/
def XMLParser.parse_import (el : XmlElem) : Import :=
  { id := optStr (el.get "id")
    name := .null
    description := .null
    namespace_val := optStr (el.get "namespace")
    location := optStr (el.get "location")
    import_type := optStr (el.get "importType") }

/-- `XMLParser._parse_case_file_item_definition`. -/
def XMLParser.parse_case_file_item_definition (el : XmlElem) :
    CaseFileItemDefinition :=
  { id := optStr (el.get "id")
    name := optStr (el.get "name")
    description := .null
    structure_ref := optStr (el.get "structureRef")
    definitive_property :=
      Json.arr
        ((childrenTagged el "definitiveProperty").map
          (fun c => Json.str (c.getD "name" ""))) }

/-- `XMLParser._parse_plan_item`. -/
def XMLParser.parse_plan_item (el : XmlElem) : PlanItem :=
  { id := optStr (el.get "id")
    name := optStr (el.get "name")
    description := .null
    definition_ref := optStr (el.get "definitionRef")
    entry_criteria :=
      Json.arr
        ((childrenTagged el "entryCriterion").map
          (fun c => Json.str (c.getD "sentryRef" "")))
    exit_criteria :=
      Json.arr
        ((childrenTagged el "exitCriterion").map
          (fun c => Json.str (c.getD "sentryRef" ""))) }

/-- `XMLParser._parse_sentry`. -/
def XMLParser.parse_sentry (el : XmlElem) : Sentry :=
  { id := optStr (el.get "id")
    name := optStr (el.get "name")
    description := .null
    on_part :=
      Json.arr
        ((childrenTagged el "planItemOnPart").map
          (fun c => Json.str (c.getD "sourceRef" "")))
    if_part :=
      match (childrenTagged el "ifPart").getLast? with
      | some c => optStr c.text
      | none => .null }

/-- `XMLParser._parse_stage`. -/
def XMLParser.parse_stage (el : XmlElem) : Stage :=
  { id := optStr (el.get "id")
    name := optStr (el.get "name")
    description := .null
    auto_complete := Json.bool (pyLower (el.getD "autoComplete" "false") = "true")
    plan_items := (childrenTagged el "planItem").map XMLParser.parse_plan_item }

/-- `XMLParser._parse_task`: dispatch on the stripped tag; an unrecognized
tag yields the base `Task` (only the five task tags reach this function from
`_parse_case_plan_model`). -/
def XMLParser.parse_task (el : XmlElem) : CmmnTask :=
  let tag := stripNamespace el.tag
  let b : TaskBase :=
    { id := optStr (el.get "id")
      name := optStr (el.get "name")
      description := .null
      is_blocking := Json.bool (pyLower (el.getD "isBlocking" "true") = "true")
      task_type := Json.str tag }
  if tag = "humanTask" then
    .human b (optStr (el.get "performer")) (optStr (el.get "formKey"))
  else if tag = "processTask" then .process b (optStr (el.get "processRef"))
  else if tag = "caseTask" then .caseTask b (optStr (el.get "caseRef"))
  else if tag = "decisionTask" then .decision b (optStr (el.get "decisionRef"))
  else .base b

/-- `XMLParser._parse_milestone`. -/
def XMLParser.parse_milestone (el : XmlElem) : Milestone :=
  { id := optStr (el.get "id"), name := optStr (el.get "name"),
    description := .null }

/-- `XMLParser._parse_case_plan_model`. -/
def XMLParser.parse_case_plan_model (el : XmlElem) : CasePlanModel :=
  { id := optStr (el.get "id")
    name := optStr (el.get "name")
    description := .null
    auto_complete := Json.bool (pyLower (el.getD "autoComplete" "false") = "true")
    plan_items := (childrenTagged el "planItem").map XMLParser.parse_plan_item
    sentries := (childrenTagged el "sentry").map XMLParser.parse_sentry
    stages := (childrenTagged el "stage").map XMLParser.parse_stage
    tasks :=
      (el.children.filter (fun c =>
          stripNamespace c.tag ∈
            ["task", "humanTask", "processTask", "caseTask", "decisionTask"])).map
        XMLParser.parse_task
    milestones := (childrenTagged el "milestone").map XMLParser.parse_milestone }

/-- `XMLParser._parse_case_file_model`. -/
def XMLParser.parse_case_file_model (el : XmlElem) : CaseFileModel :=
  { id := optStr (el.get "id")
    name := optStr (el.get "name")
    description := .null
    case_file_items :=
      Json.arr
        ((childrenTagged el "caseFileItem").map
          (fun c => Json.str (c.getD "definitionRef" ""))) }

/-- `XMLParser._parse_case` (assignments in the child loop keep the last
matching child). -/
def XMLParser.parse_case (el : XmlElem) : Case :=
  { id := optStr (el.get "id")
    name := optStr (el.get "name")
    description := .null
    case_plan_model :=
      ((childrenTagged el "casePlanModel").getLast?).map
        XMLParser.parse_case_plan_model
    case_file_model :=
      ((childrenTagged el "caseFileModel").getLast?).map
        XMLParser.parse_case_file_model }

/-- `XMLParser._parse_process`. -/
def XMLParser.parse_process (el : XmlElem) : Process :=
  { id := optStr (el.get "id")
    name := optStr (el.get "name")
    description := .null
    is_executable := Json.bool (pyLower (el.getD "isExecutable" "true") = "true")
    implementation_type := optStr (el.get "implementationType") }

/-- `XMLParser._parse_decision`. -/
def XMLParser.parse_decision (el : XmlElem) : Decision :=
  { id := optStr (el.get "id")
    name := optStr (el.get "name")
    description := .null
    decision_logic :=
      match (childrenTagged el "decisionLogic").getLast? with
      | some c => optStr c.text
      | none => .null }

/-- `XMLParser._parse_definitions`: walk the root's children, dispatching on
the stripped tag. -/
def XMLParser.parse_definitions (root : XmlElem) : CMMNDefinitions :=
  { id := optStr (root.get "id")
    name := optStr (root.get "name")
    target_namespace := optStr (root.get "targetNamespace")
    expression_language := optStr (root.get "expressionLanguage")
    exporter := optStr (root.get "exporter")
    exporter_version := optStr (root.get "exporterVersion")
    author := optStr (root.get "author")
    creation_date := optStr (root.get "creationDate")
    imports := (childrenTagged root "import").map XMLParser.parse_import
    case_file_item_definitions :=
      (childrenTagged root "caseFileItemDefinition").map
        XMLParser.parse_case_file_item_definition
    cases := (childrenTagged root "case").map XMLParser.parse_case
    processes := (childrenTagged root "process").map XMLParser.parse_process
    decisions := (childrenTagged root "decision").map XMLParser.parse_decision
    extension_elements :=
      ((childrenTagged root "extensionElements").getLast?).map
        XMLParser.parse_extension_elements }

/-- `XMLParser.parse`: the tokenizer's outcome is the input — an
`XMLSyntaxError` becomes a `CMMNParsingError` with the `Invalid XML syntax`
message, a well-formed tree is accepted iff its root tag ends with
`definitions` (note: `root.tag.endswith("definitions")`, a suffix test). -/
def XMLParser.parse (input : Except String XmlElem) :
    Except PyErr CMMNDefinitions :=
  match input with
  | .error e => .error (.cmmnParsingError ("Invalid XML syntax: " ++ e))
  | .ok root =>
    if pyEndsWith root.tag "definitions" then .ok (XMLParser.parse_definitions root)
    else
      .error
        (.cmmnParsingError
          ("Root element must be 'definitions', got '" ++ root.tag ++ "'"))

/-! ### `CMMNDefinitions.to_dict` and its helpers (`models.py`) -/

/-- `CMMNDefinitions._import_to_dict`. -/
def CMMNDefinitions.import_to_dict (imp : Import) : Json :=
  Json.obj
    [("id", imp.id), ("namespace", imp.namespace_val),
     ("location", imp.location), ("importType", imp.import_type)]

/-- `CMMNDefinitions._case_file_item_def_to_dict`. -/
def CMMNDefinitions.case_file_item_def_to_dict (cfid : CaseFileItemDefinition) :
    Json :=
  Json.obj
    [("id", cfid.id), ("name", cfid.name), ("description", cfid.description),
     ("structureRef", cfid.structure_ref),
     ("definitiveProperty", cfid.definitive_property)]

/-- `CMMNDefinitions._plan_item_to_dict`. -/
def CMMNDefinitions.plan_item_to_dict (pi : PlanItem) : Json :=
  Json.obj
    [("id", pi.id), ("name", pi.name), ("definitionRef", pi.definition_ref),
     ("entryCriteria", pi.entry_criteria), ("exitCriteria", pi.exit_criteria)]

/-- `CMMNDefinitions._sentry_to_dict`. -/
def CMMNDefinitions.sentry_to_dict (s : Sentry) : Json :=
  Json.obj
    [("id", s.id), ("name", s.name), ("onPart", s.on_part),
     ("ifPart", s.if_part)]

/-- `CMMNDefinitions._stage_to_dict`. -/
def CMMNDefinitions.stage_to_dict (st : Stage) : Json :=
  Json.obj
    [("id", st.id), ("name", st.name), ("autoComplete", st.auto_complete),
     ("planItems",
      Json.arr (st.plan_items.map CMMNDefinitions.plan_item_to_dict))]

/-- `CMMNDefinitions._task_to_dict`: base keys, then the `isinstance`
dispatch appends an explicit `type` discriminator and the variant's
fields. -/
def CMMNDefinitions.task_to_dict (t : CmmnTask) : Json :=
  match t with
  | .base b =>
    Json.obj
      [("id", b.id), ("name", b.name), ("isBlocking", b.is_blocking),
       ("taskType", b.task_type)]
  | .human b performer form_key =>
    Json.obj
      [("id", b.id), ("name", b.name), ("isBlocking", b.is_blocking),
       ("taskType", b.task_type), ("type", .str "humanTask"),
       ("performer", performer), ("formKey", form_key)]
  | .process b process_ref =>
    Json.obj
      [("id", b.id), ("name", b.name), ("isBlocking", b.is_blocking),
       ("taskType", b.task_type), ("type", .str "processTask"),
       ("processRef", process_ref)]
  | .caseTask b case_ref =>
    Json.obj
      [("id", b.id), ("name", b.name), ("isBlocking", b.is_blocking),
       ("taskType", b.task_type), ("type", .str "caseTask"),
       ("caseRef", case_ref)]
  | .decision b decision_ref =>
    Json.obj
      [("id", b.id), ("name", b.name), ("isBlocking", b.is_blocking),
       ("taskType", b.task_type), ("type", .str "decisionTask"),
       ("decisionRef", decision_ref)]

/-- `CMMNDefinitions._milestone_to_dict`. -/
def CMMNDefinitions.milestone_to_dict (m : Milestone) : Json :=
  Json.obj [("id", m.id), ("name", m.name), ("description", m.description)]

/-- `CMMNDefinitions._case_plan_model_to_dict`. -/
def CMMNDefinitions.case_plan_model_to_dict (cpm : CasePlanModel) : Json :=
  Json.obj
    [("id", cpm.id), ("name", cpm.name), ("autoComplete", cpm.auto_complete),
     ("planItems",
      Json.arr (cpm.plan_items.map CMMNDefinitions.plan_item_to_dict)),
     ("sentries", Json.arr (cpm.sentries.map CMMNDefinitions.sentry_to_dict)),
     ("stages", Json.arr (cpm.stages.map CMMNDefinitions.stage_to_dict)),
     ("tasks", Json.arr (cpm.tasks.map CMMNDefinitions.task_to_dict)),
     ("milestones",
      Json.arr (cpm.milestones.map CMMNDefinitions.milestone_to_dict))]

/-- `CMMNDefinitions._case_to_dict` (the two optional sub-documents are
emitted only when present). -/
def CMMNDefinitions.case_to_dict (c : Case) : Json :=
  let base : List (String × Json) :=
    [("id", c.id), ("name", c.name), ("description", c.description)]
  let withCpm : List (String × Json) :=
    match c.case_plan_model with
    | some cpm =>
      base ++ [("casePlanModel", CMMNDefinitions.case_plan_model_to_dict cpm)]
    | none => base
  let withCfm : List (String × Json) :=
    match c.case_file_model with
    | some cfm =>
      withCpm ++
        [("caseFileModel",
          Json.obj
            [("id", cfm.id), ("name", cfm.name),
             ("caseFileItems", cfm.case_file_items)])]
    | none => withCpm
  Json.obj withCfm

/-- `CMMNDefinitions._process_to_dict`. -/
def CMMNDefinitions.process_to_dict (p : Process) : Json :=
  Json.obj
    [("id", p.id), ("name", p.name), ("description", p.description),
     ("isExecutable", p.is_executable),
     ("implementationType", p.implementation_type)]

/-- `CMMNDefinitions._decision_to_dict`. -/
def CMMNDefinitions.decision_to_dict (d : Decision) : Json :=
  Json.obj
    [("id", d.id), ("name", d.name), ("description", d.description),
     ("decisionLogic", d.decision_logic)]

/-- `CMMNDefinitions.to_dict`: the JSON-dialect mapping of the whole tree
(`extensionElements` appended only when present). -/
def CMMNDefinitions.to_dict (d : CMMNDefinitions) : Json :=
  let result : List (String × Json) :=
    [("id", d.id), ("name", d.name), ("targetNamespace", d.target_namespace),
     ("expressionLanguage", d.expression_language), ("exporter", d.exporter),
     ("exporterVersion", d.exporter_version), ("author", d.author),
     ("creationDate", d.creation_date),
     ("imports", Json.arr (d.imports.map CMMNDefinitions.import_to_dict)),
     ("caseFileItemDefinitions",
      Json.arr
        (d.case_file_item_definitions.map
          CMMNDefinitions.case_file_item_def_to_dict)),
     ("cases", Json.arr (d.cases.map CMMNDefinitions.case_to_dict)),
     ("processes", Json.arr (d.processes.map CMMNDefinitions.process_to_dict)),
     ("decisions", Json.arr (d.decisions.map CMMNDefinitions.decision_to_dict))]
  match d.extension_elements with
  | some elems => Json.obj (result ++ [("extensionElements", elems)])
  | none => Json.obj result

/-! ### `cmmn_parser/json_parser.py` — `JSONParser`

Builder methods call `.get` on their argument, so a non-dictionary argument
raises (`AttributeError` in Python, modelled as a `typeError`); iterating a
non-array raises likewise. -/

/-- The error a `.get` on a non-dictionary raises. -/
def pyAttrError : PyErr := .typeError "object has no attribute 'get'"

/-- A Python list comprehension over a decoded value: requires a list
(iteration over any other value is modelled as a type error). -/
def Json.asList : Json → Except PyErr (List Json)
  | .arr xs => .ok xs
  | _ => .error (.typeError "value is not iterable")

/-- A list comprehension `[f(x) for x in xs]` under exceptions: first
failure propagates. -/
def mapEx (f : Json → Except PyErr α) : List Json → Except PyErr (List α)
  | [] => .ok []
  | x :: xs => do
    let a ← f x
    let as ← mapEx f xs
    .ok (a :: as)

/-- Comprehension over a decoded value that must be a list. -/
def listEx (f : Json → Except PyErr α) (v : Json) : Except PyErr (List α) := do
  mapEx f (← v.asList)

/-- `JSONParser._parse_import`. -/
def JSONParser.parse_import : Json → Except PyErr Import
  | data@(.obj _) =>
    .ok
      { id := data.get "id", name := .null, description := .null,
        namespace_val := data.get "namespace", location := data.get "location",
        import_type := data.get "importType" }
  | _ => .error pyAttrError

/-- `JSONParser._parse_case_file_item_definition`. -/
def JSONParser.parse_case_file_item_definition :
    Json → Except PyErr CaseFileItemDefinition
  | data@(.obj _) =>
    .ok
      { id := data.get "id", name := data.get "name",
        description := data.get "description",
        structure_ref := data.get "structureRef",
        definitive_property := data.getD "definitiveProperty" (.arr []) }
  | _ => .error pyAttrError

/-- `JSONParser._parse_plan_item`. -/
def JSONParser.parse_plan_item : Json → Except PyErr PlanItem
  | data@(.obj _) =>
    .ok
      { id := data.get "id", name := data.get "name", description := .null,
        definition_ref := data.get "definitionRef",
        entry_criteria := data.getD "entryCriteria" (.arr []),
        exit_criteria := data.getD "exitCriteria" (.arr []) }
  | _ => .error pyAttrError

/-- `JSONParser._parse_sentry`. -/
def JSONParser.parse_sentry : Json → Except PyErr Sentry
  | data@(.obj _) =>
    .ok
      { id := data.get "id", name := data.get "name", description := .null,
        on_part := data.getD "onPart" (.arr []),
        if_part := data.get "ifPart" }
  | _ => .error pyAttrError

/-- `JSONParser._parse_stage`. -/
def JSONParser.parse_stage : Json → Except PyErr Stage
  | data@(.obj _) => do
    let plan_items ←
      if data.hasKey "planItems" then
        listEx JSONParser.parse_plan_item (data.get "planItems")
      else .ok []
    .ok
      { id := data.get "id", name := data.get "name", description := .null,
        auto_complete := data.getD "autoComplete" (.bool false),
        plan_items := plan_items }
  | _ => .error pyAttrError

/-- `JSONParser._parse_task`: the explicit discriminator
`data.get("type", data.get("taskType", "task"))` selects the variant; an
unrecognized discriminator yields the base `Task`. -/
def JSONParser.parse_task : Json → Except PyErr CmmnTask
  | data@(.obj _) =>
    let task_type := data.getD "type" (data.getD "taskType" (.str "task"))
    let b : TaskBase :=
      { id := data.get "id", name := data.get "name", description := .null,
        is_blocking := data.getD "isBlocking" (.bool true),
        task_type := task_type }
    if task_type.eqStr "humanTask" then
      .ok (.human b (data.get "performer") (data.get "formKey"))
    else if task_type.eqStr "processTask" then
      .ok (.process b (data.get "processRef"))
    else if task_type.eqStr "caseTask" then
      .ok (.caseTask b (data.get "caseRef"))
    else if task_type.eqStr "decisionTask" then
      .ok (.decision b (data.get "decisionRef"))
    else .ok (.base b)
  | _ => .error pyAttrError

/-- `JSONParser._parse_milestone`. -/
def JSONParser.parse_milestone : Json → Except PyErr Milestone
  | data@(.obj _) =>
    .ok
      { id := data.get "id", name := data.get "name",
        description := data.get "description" }
  | _ => .error pyAttrError

/-- `JSONParser._parse_case_plan_model` with its `_populate_*` helpers. -/
def JSONParser.parse_case_plan_model : Json → Except PyErr CasePlanModel
  | data@(.obj _) => do
    let plan_items ←
      if data.hasKey "planItems" then
        listEx JSONParser.parse_plan_item (data.get "planItems")
      else .ok []
    let sentries ←
      if data.hasKey "sentries" then
        listEx JSONParser.parse_sentry (data.get "sentries")
      else .ok []
    let stages ←
      if data.hasKey "stages" then
        listEx JSONParser.parse_stage (data.get "stages")
      else .ok []
    let tasks ←
      if data.hasKey "tasks" then listEx JSONParser.parse_task (data.get "tasks")
      else .ok []
    let milestones ←
      if data.hasKey "milestones" then
        listEx JSONParser.parse_milestone (data.get "milestones")
      else .ok []
    .ok
      { id := data.get "id", name := data.get "name", description := .null,
        auto_complete := data.getD "autoComplete" (.bool false),
        plan_items := plan_items, sentries := sentries, stages := stages,
        tasks := tasks, milestones := milestones }
  | _ => .error pyAttrError

/-- `JSONParser._parse_case_file_model`. -/
def JSONParser.parse_case_file_model : Json → Except PyErr CaseFileModel
  | data@(.obj _) =>
    .ok
      { id := data.get "id", name := data.get "name", description := .null,
        case_file_items := data.getD "caseFileItems" (.arr []) }
  | _ => .error pyAttrError

/-- `JSONParser._parse_case`. -/
def JSONParser.parse_case : Json → Except PyErr Case
  | data@(.obj _) => do
    let cpm ←
      if data.hasKey "casePlanModel" then
        (JSONParser.parse_case_plan_model (data.get "casePlanModel")).map some
      else .ok none
    let cfm ←
      if data.hasKey "caseFileModel" then
        (JSONParser.parse_case_file_model (data.get "caseFileModel")).map some
      else .ok none
    .ok
      { id := data.get "id", name := data.get "name",
        description := data.get "description",
        case_plan_model := cpm, case_file_model := cfm }
  | _ => .error pyAttrError

/-- `JSONParser._parse_process`. -/
def JSONParser.parse_process : Json → Except PyErr Process
  | data@(.obj _) =>
    .ok
      { id := data.get "id", name := data.get "name",
        description := data.get "description",
        is_executable := data.getD "isExecutable" (.bool true),
        implementation_type := data.get "implementationType" }
  | _ => .error pyAttrError

/-- `JSONParser._parse_decision`. -/
def JSONParser.parse_decision : Json → Except PyErr Decision
  | data@(.obj _) =>
    .ok
      { id := data.get "id", name := data.get "name",
        description := data.get "description",
        decision_logic := data.get "decisionLogic" }
  | _ => .error pyAttrError

/-- `JSONParser._parse_definitions` with `_create_base_definitions` and the
`_populate_*` helpers. -/
def JSONParser.parse_definitions (data : Json) :
    Except PyErr CMMNDefinitions := do
  let imports ←
    if data.hasKey "imports" then
      listEx JSONParser.parse_import (data.get "imports")
    else .ok []
  let cfids ←
    if data.hasKey "caseFileItemDefinitions" then
      listEx JSONParser.parse_case_file_item_definition
        (data.get "caseFileItemDefinitions")
    else .ok []
  let cases ←
    if data.hasKey "cases" then listEx JSONParser.parse_case (data.get "cases")
    else .ok []
  let processes ←
    if data.hasKey "processes" then
      listEx JSONParser.parse_process (data.get "processes")
    else .ok []
  let decisions ←
    if data.hasKey "decisions" then
      listEx JSONParser.parse_decision (data.get "decisions")
    else .ok []
  let ext : Option Json :=
    if data.hasKey "extensionElements" then some (data.get "extensionElements")
    else none
  .ok
    { id := data.get "id", name := data.get "name",
      target_namespace := data.get "targetNamespace",
      expression_language := data.get "expressionLanguage",
      exporter := data.get "exporter",
      exporter_version := data.get "exporterVersion",
      author := data.get "author", creation_date := data.get "creationDate",
      imports := imports, case_file_item_definitions := cfids, cases := cases,
      processes := processes, decisions := decisions,
      extension_elements := ext }

/-- `JSONParser.parse`: requires a dictionary, else raises
`CMMNParsingError("JSON data must be a dictionary")`. -/
def JSONParser.parse : Json → Except PyErr CMMNDefinitions
  | data@(.obj _) => JSONParser.parse_definitions data
  | _ => .error (.cmmnParsingError "JSON data must be a dictionary")

/-! ### Round-trip infrastructure: `JSONParser.parse ∘ CMMNDefinitions.to_dict`

`to_dict` omits the fields a given node never serializes (for instance an
`Import`'s inherited `name`), and the JSON builder leaves them at their
dataclass default; a tree in the image of the XML parser always carries the
default there, captured by the `*Ok` predicates below. -/

theorem mapEx_map_ok {α} (f : Json → Except PyErr α) (g : α → Json)
    (xs : List α) (h : ∀ x ∈ xs, f (g x) = .ok x) :
    mapEx f (xs.map g) = .ok xs := by
  induction xs with
  | cons hd tl ih =>
    simp only [List.map_cons, mapEx, h hd (by simp)]
    rw [ih (fun y hy => h y (by simp [hy]))]
    rfl
  | nil => rfl

theorem listEx_arr {α} (f : Json → Except PyErr α) (ys : List Json) :
    listEx f (Json.arr ys) = mapEx f ys := rfl

/-- Fields of an `Import` the serializer drops are at their default. -/
def importOk (imp : Import) : Prop :=
  imp.name = .null ∧ imp.description = .null

def planItemOk (pi : PlanItem) : Prop := pi.description = .null

def sentryOk (s : Sentry) : Prop := s.description = .null

def stageOk (st : Stage) : Prop :=
  st.description = .null ∧ ∀ pi ∈ st.plan_items, planItemOk pi

/-- A task round-trips when its `description` is at the default and its
`task_type` agrees with its runtime class (a base `Task` must not carry a
variant's discriminator, since `_parse_task` would then rebuild the
variant). -/
def taskOk : CmmnTask → Prop
  | .base b =>
    b.description = .null ∧ b.task_type.eqStr "humanTask" = false ∧
      b.task_type.eqStr "processTask" = false ∧
      b.task_type.eqStr "caseTask" = false ∧
      b.task_type.eqStr "decisionTask" = false
  | .human b _ _ => b.description = .null ∧ b.task_type = .str "humanTask"
  | .process b _ => b.description = .null ∧ b.task_type = .str "processTask"
  | .caseTask b _ => b.description = .null ∧ b.task_type = .str "caseTask"
  | .decision b _ => b.description = .null ∧ b.task_type = .str "decisionTask"

def cpmOk (cpm : CasePlanModel) : Prop :=
  cpm.description = .null ∧ (∀ pi ∈ cpm.plan_items, planItemOk pi) ∧
    (∀ s ∈ cpm.sentries, sentryOk s) ∧ (∀ st ∈ cpm.stages, stageOk st) ∧
    ∀ t ∈ cpm.tasks, taskOk t

def caseOk (c : Case) : Prop :=
  (∀ cpm, c.case_plan_model = some cpm → cpmOk cpm) ∧
    ∀ cfm, c.case_file_model = some cfm → cfm.description = .null

def defsOk (d : CMMNDefinitions) : Prop :=
  (∀ imp ∈ d.imports, importOk imp) ∧ ∀ c ∈ d.cases, caseOk c

theorem import_rt (imp : Import) (h : importOk imp) :
    JSONParser.parse_import (CMMNDefinitions.import_to_dict imp) = .ok imp := by
  obtain ⟨h1, h2⟩ := h
  cases imp
  simp only at h1 h2
  subst h1 h2
  rfl

theorem cfid_rt (cfid : CaseFileItemDefinition) :
    JSONParser.parse_case_file_item_definition
        (CMMNDefinitions.case_file_item_def_to_dict cfid) = .ok cfid := by
  cases cfid; rfl

theorem plan_item_rt (pi : PlanItem) (h : planItemOk pi) :
    JSONParser.parse_plan_item (CMMNDefinitions.plan_item_to_dict pi) =
      .ok pi := by
  cases pi; simp only [planItemOk] at h; subst h; rfl

theorem sentry_rt (s : Sentry) (h : sentryOk s) :
    JSONParser.parse_sentry (CMMNDefinitions.sentry_to_dict s) = .ok s := by
  cases s; simp only [sentryOk] at h; subst h; rfl

theorem milestone_rt (m : Milestone) :
    JSONParser.parse_milestone (CMMNDefinitions.milestone_to_dict m) = .ok m := by
  cases m; rfl

theorem process_rt (p : Process) :
    JSONParser.parse_process (CMMNDefinitions.process_to_dict p) = .ok p := by
  cases p; rfl

theorem decision_rt (d : Decision) :
    JSONParser.parse_decision (CMMNDefinitions.decision_to_dict d) = .ok d := by
  cases d; rfl

theorem cfm_rt (cfm : CaseFileModel) (h : cfm.description = .null) :
    JSONParser.parse_case_file_model
        (Json.obj
          [("id", cfm.id), ("name", cfm.name),
           ("caseFileItems", cfm.case_file_items)]) = .ok cfm := by
  cases cfm; simp only at h; subst h; rfl

theorem stage_rt (st : Stage) (h : stageOk st) :
    JSONParser.parse_stage (CMMNDefinitions.stage_to_dict st) = .ok st := by
  obtain ⟨h1, h2⟩ := h
  cases st with
  | mk id name description auto_complete plan_items =>
  simp only at h1 h2
  subst h1
  simp only [CMMNDefinitions.stage_to_dict, JSONParser.parse_stage,
    Json.hasKey, Json.get, Json.getD, Json.find, Json.lookupKey,
    String.reduceEq, reduceIte, Option.isSome_some]
  rw [listEx_arr, mapEx_map_ok _ _ _ (fun pi hpi => plan_item_rt pi (h2 pi hpi))]
  rfl

theorem task_rt (t : CmmnTask) (h : taskOk t) :
    JSONParser.parse_task (CMMNDefinitions.task_to_dict t) = .ok t := by
  cases t with
  | base b =>
    obtain ⟨h1, h2, h3, h4, h5⟩ := h
    cases b
    simp only at h1 h2 h3 h4 h5
    subst h1
    simp only [CMMNDefinitions.task_to_dict, JSONParser.parse_task,
      Json.hasKey, Json.get, Json.getD, Json.find, Json.lookupKey,
      String.reduceEq, reduceIte]
    simp only [h2, h3, h4, h5, Bool.false_eq_true, if_false]
  | human b p fk =>
    obtain ⟨h1, h2⟩ := h
    cases b; simp only at h1 h2; subst h1 h2; rfl
  | process b r =>
    obtain ⟨h1, h2⟩ := h
    cases b; simp only at h1 h2; subst h1 h2; rfl
  | caseTask b r =>
    obtain ⟨h1, h2⟩ := h
    cases b; simp only at h1 h2; subst h1 h2; rfl
  | decision b r =>
    obtain ⟨h1, h2⟩ := h
    cases b; simp only at h1 h2; subst h1 h2; rfl

theorem cpm_rt (cpm : CasePlanModel) (h : cpmOk cpm) :
    JSONParser.parse_case_plan_model
        (CMMNDefinitions.case_plan_model_to_dict cpm) = .ok cpm := by
  obtain ⟨h1, h2, h3, h4, h5⟩ := h
  cases cpm with
  | mk id name description auto_complete plan_items sentries stages tasks
      milestones =>
  simp only at h1 h2 h3 h4 h5
  subst h1
  simp only [CMMNDefinitions.case_plan_model_to_dict,
    JSONParser.parse_case_plan_model, Json.hasKey, Json.get, Json.getD,
    Json.find, Json.lookupKey, String.reduceEq, reduceIte, Option.isSome_some]
  rw [listEx_arr, mapEx_map_ok _ _ _ (fun pi hpi => plan_item_rt pi (h2 pi hpi))]
  rw [listEx_arr, mapEx_map_ok _ _ _ (fun s hs => sentry_rt s (h3 s hs))]
  rw [listEx_arr, mapEx_map_ok _ _ _ (fun st hst => stage_rt st (h4 st hst))]
  rw [listEx_arr, mapEx_map_ok _ _ _ (fun t ht => task_rt t (h5 t ht))]
  rw [listEx_arr, mapEx_map_ok _ _ _ (fun m _ => milestone_rt m)]
  rfl

theorem case_rt (c : Case) (h : caseOk c) :
    JSONParser.parse_case (CMMNDefinitions.case_to_dict c) = .ok c := by
  obtain ⟨h1, h2⟩ := h
  cases c with
  | mk id name description case_plan_model case_file_model =>
  simp only at h1 h2
  cases case_plan_model with
  | none =>
    cases case_file_model with
    | none => rfl
    | some cfm =>
      simp only [CMMNDefinitions.case_to_dict, JSONParser.parse_case,
        Json.hasKey, Json.get, Json.getD, Json.find, Json.lookupKey,
        String.reduceEq, reduceIte, Option.isSome_some, Option.isSome_none,
        Bool.false_eq_true, if_false]
      rw [cfm_rt cfm (h2 cfm rfl)]
      rfl
  | some cpm =>
    have hcpm := cpm_rt cpm (h1 cpm rfl)
    cases case_file_model with
    | none =>
      simp only [CMMNDefinitions.case_to_dict, JSONParser.parse_case,
        Json.hasKey, Json.get, Json.getD, Json.find, Json.lookupKey,
        String.reduceEq, reduceIte, Option.isSome_some, Option.isSome_none,
        Bool.false_eq_true, if_false]
      rw [hcpm]
      rfl
    | some cfm =>
      simp only [CMMNDefinitions.case_to_dict, JSONParser.parse_case,
        Json.hasKey, Json.get, Json.getD, Json.find, Json.lookupKey,
        String.reduceEq, reduceIte, Option.isSome_some, Option.isSome_none,
        Bool.false_eq_true, if_false]
      rw [hcpm, cfm_rt cfm (h2 cfm rfl)]
      rfl

theorem defs_rt (d : CMMNDefinitions) (h : defsOk d) :
    JSONParser.parse (CMMNDefinitions.to_dict d) = .ok d := by
  obtain ⟨h1, h2⟩ := h
  cases d with
  | mk id name target_namespace expression_language exporter exporter_version
      author creation_date imports case_file_item_definitions cases processes
      decisions extension_elements =>
  simp only at h1 h2
  cases extension_elements with
  | none =>
    simp only [CMMNDefinitions.to_dict, JSONParser.parse,
      JSONParser.parse_definitions, Json.hasKey, Json.get, Json.getD,
      Json.find, Json.lookupKey, String.reduceEq, reduceIte,
      Option.isSome_some, Option.isSome_none, Bool.false_eq_true, if_false]
    rw [listEx_arr, mapEx_map_ok _ _ _ (fun imp hi => import_rt imp (h1 imp hi))]
    rw [listEx_arr, mapEx_map_ok _ _ _ (fun cfid _ => cfid_rt cfid)]
    rw [listEx_arr, mapEx_map_ok _ _ _ (fun c hc => case_rt c (h2 c hc))]
    rw [listEx_arr, mapEx_map_ok _ _ _ (fun p _ => process_rt p)]
    rw [listEx_arr, mapEx_map_ok _ _ _ (fun dec _ => decision_rt dec)]
    rfl
  | some ext =>
    simp only [CMMNDefinitions.to_dict, JSONParser.parse,
      JSONParser.parse_definitions, Json.hasKey, Json.get, Json.getD,
      Json.find, Json.lookupKey, String.reduceEq, reduceIte,
      Option.isSome_some, Option.isSome_none, Bool.false_eq_true, if_false]
    rw [listEx_arr, mapEx_map_ok _ _ _ (fun imp hi => import_rt imp (h1 imp hi))]
    rw [listEx_arr, mapEx_map_ok _ _ _ (fun cfid _ => cfid_rt cfid)]
    rw [listEx_arr, mapEx_map_ok _ _ _ (fun c hc => case_rt c (h2 c hc))]
    rw [listEx_arr, mapEx_map_ok _ _ _ (fun p _ => process_rt p)]
    rw [listEx_arr, mapEx_map_ok _ _ _ (fun dec _ => decision_rt dec)]
    rfl

/-! ### The XML builder's image satisfies the round-trip invariants. -/

theorem xml_import_ok (el : XmlElem) : importOk (XMLParser.parse_import el) :=
  ⟨rfl, rfl⟩

theorem xml_plan_item_ok (el : XmlElem) :
    planItemOk (XMLParser.parse_plan_item el) := rfl

theorem xml_sentry_ok (el : XmlElem) : sentryOk (XMLParser.parse_sentry el) :=
  rfl

theorem xml_stage_ok (el : XmlElem) : stageOk (XMLParser.parse_stage el) := by
  refine ⟨rfl, ?_⟩
  intro pi hpi
  simp only [XMLParser.parse_stage, List.mem_map] at hpi
  obtain ⟨c, _, rfl⟩ := hpi
  exact xml_plan_item_ok c

theorem xml_task_ok (el : XmlElem) : taskOk (XMLParser.parse_task el) := by
  unfold XMLParser.parse_task
  by_cases hh : stripNamespace el.tag = "humanTask"
  · simp only [hh, if_true]
    exact ⟨rfl, by simp [hh]⟩
  by_cases hp : stripNamespace el.tag = "processTask"
  · simp only [hh, hp, if_true, if_false]
    exact ⟨rfl, by simp [hp]⟩
  by_cases hc : stripNamespace el.tag = "caseTask"
  · simp only [hh, hp, hc, if_true, if_false]
    exact ⟨rfl, by simp [hc]⟩
  by_cases hd : stripNamespace el.tag = "decisionTask"
  · simp only [hh, hp, hc, hd, if_true, if_false]
    exact ⟨rfl, by simp [hd]⟩
  simp only [hh, hp, hc, hd, if_false]
  exact
    ⟨rfl, by simp [Json.eqStr, hh], by simp [Json.eqStr, hp],
      by simp [Json.eqStr, hc], by simp [Json.eqStr, hd]⟩

theorem xml_cpm_ok (el : XmlElem) :
    cpmOk (XMLParser.parse_case_plan_model el) := by
  refine ⟨rfl, ?_, ?_, ?_, ?_⟩ <;>
    · intro x hx
      simp only [XMLParser.parse_case_plan_model, List.mem_map] at hx
      obtain ⟨c, _, rfl⟩ := hx
      first
        | exact xml_plan_item_ok c
        | exact xml_sentry_ok c
        | exact xml_stage_ok c
        | exact xml_task_ok c

theorem xml_case_ok (el : XmlElem) : caseOk (XMLParser.parse_case el) := by
  constructor
  · intro cpm hcpm
    simp only [XMLParser.parse_case, Option.map_eq_some'] at hcpm
    obtain ⟨c, _, rfl⟩ := hcpm
    exact xml_cpm_ok c
  · intro cfm hcfm
    simp only [XMLParser.parse_case, Option.map_eq_some'] at hcfm
    obtain ⟨c, _, rfl⟩ := hcfm
    rfl

theorem xml_defs_ok (root : XmlElem) :
    defsOk (XMLParser.parse_definitions root) := by
  constructor
  · intro imp hi
    simp only [XMLParser.parse_definitions, List.mem_map] at hi
    obtain ⟨c, _, rfl⟩ := hi
    exact xml_import_ok c
  · intro c hc
    simp only [XMLParser.parse_definitions, List.mem_map] at hc
    obtain ⟨e, _, rfl⟩ := hc
    exact xml_case_ok e

/-- Claim C1: for every valid CMMN XML document (a tokenizer outcome the XML
parser accepts), serializing the parsed tree with `CMMNDefinitions.to_dict`
and rebuilding it with `JSONParser.parse` reproduces the tree exactly —
every scalar field and every collection, in order (equality of the whole
tree implies order preservation of each collection). -/
theorem C1_xml_to_dict_json_round_trip (input : Except String XmlElem)
    (defs : CMMNDefinitions) (h : XMLParser.parse input = .ok defs) :
    JSONParser.parse (CMMNDefinitions.to_dict defs) = .ok defs := by
  match input with
  | .error e => simp [XMLParser.parse] at h
  | .ok root =>
    by_cases hr : pyEndsWith root.tag "definitions" = true
    · simp only [XMLParser.parse, hr, if_true] at h
      cases h
      exact defs_rt _ (xml_defs_ok root)
    · simp [XMLParser.parse, hr] at h

/-- Witness for C1 at a concrete accepted document. -/
theorem C1_witness :
    JSONParser.parse
        (CMMNDefinitions.to_dict
          (XMLParser.parse_definitions
            (XmlElem.mk "definitions" [("targetNamespace", "tns")] none
              [XmlElem.mk "case" [("id", "C1")] none []]))) =
      .ok
        (XMLParser.parse_definitions
          (XmlElem.mk "definitions" [("targetNamespace", "tns")] none
            [XmlElem.mk "case" [("id", "C1")] none []])) :=
  C1_xml_to_dict_json_round_trip
    (.ok
      (XmlElem.mk "definitions" [("targetNamespace", "tns")] none
        [XmlElem.mk "case" [("id", "C1")] none []]))
    _ rfl

/-! ### The `CMMNParser` dialect (`cmmn_parser/parser.py`)

`parser.py` imports its node classes (`CMMNDefinition`, `PlanItem`,
`ItemControl`, task/criterion variants, …) from a `models` module that is not
part of the sources; each structure below is therefore modelled from the
spec (§3 data-model catalog: tagged variants, optional scalars defaulting to
`None`, collections defaulting to empty), with exactly the fields
`parser.py` populates.  The parse functions themselves are translated from
`parser.py`. -/

/-- Python `data[k]`: the stored value, `KeyError` when absent, `TypeError`
when the receiver is not a dictionary. -/
def Json.index : Json → String → Except PyErr Json
  | data@(.obj _), k =>
    match data.find k with
    | some v => .ok v
    | none => .error (.keyError k)
  | _, _ => .error (.typeError "value is not subscriptable")

/-- Modelled from the spec: the missing `models.ItemControl` of the
`CMMNParser` dialect — three optional rule expressions. -/
structure ItemControlB where
  required_rule : Json
  repetition_rule : Json
  manual_activation_rule : Json

/-- Modelled from the spec: the missing `models.PlanItem` of the
`CMMNParser` dialect — definition reference, entry/exit/reactivation
criterion reference lists (collections default to empty, never null), and
an optional item control. -/
structure PlanItemB where
  id : Json
  name : Json
  documentation : Json
  definition_ref : Json
  entry_criteria : Json := .arr []
  exit_criteria : Json := .arr []
  reactivation_criteria : Json := .arr []
  item_control : Option ItemControlB := none

/-- Modelled from the spec: the missing base-task fields of the
`CMMNParser` dialect (`is_blocking` defaults to true). -/
structure TaskBaseB where
  id : Json
  name : Json
  documentation : Json
  is_blocking : Json

/-- Modelled from the spec: the missing task variants of the `CMMNParser`
dialect, distinguished by which reference field is populated. -/
inductive TaskB where
  | human (b : TaskBaseB) (performer : Json)
  | process (b : TaskBaseB) (process_ref : Json)
  | caseTask (b : TaskBaseB) (case_ref : Json)

/-- Modelled from the spec: the missing criterion variants of the
`CMMNParser` dialect — identical shape, distinguished purely by tag. -/
inductive CriterionB where
  | entry (id name documentation sentry_ref : Json)
  | exit (id name documentation sentry_ref : Json)
  | reactivation (id name documentation sentry_ref : Json)

/-- Modelled from the spec: the missing event-listener variants of the
`CMMNParser` dialect. -/
inductive EventListenerB where
  | timer (id name documentation timer_expression : Json)
  | user (id name documentation authorized_role_refs : Json)

/-- Modelled from the spec: the missing `models.Milestone` of the
`CMMNParser` dialect. -/
structure MilestoneB where
  id : Json
  name : Json
  documentation : Json

/-- Modelled from the spec: the missing `models.OnPart` of the `CMMNParser`
dialect. -/
structure OnPartB where
  id : Json
  source_ref : Json
  standard_event : Json := .null

/-- Modelled from the spec: the missing `models.IfPart` of the `CMMNParser`
dialect. -/
structure IfPartB where
  id : Json
  condition : Json := .null

/-- Modelled from the spec: the missing `models.Sentry` of the `CMMNParser`
dialect. -/
structure SentryB where
  id : Json
  name : Json
  documentation : Json
  on_parts : List OnPartB := []
  if_part : Option IfPartB := none

/-- Modelled from the spec: the missing `models.Role` of the `CMMNParser`
dialect. -/
structure RoleB where
  id : Json
  name : Json

/-- Modelled from the spec: the missing `models.CaseFileItem` of the
`CMMNParser` dialect — recursive through `children`. -/
structure CaseFileItemB where
  id : Json
  name : Json
  documentation : Json
  definition_type : Json
  multiplicity : Json
  source_ref : Json
  target_refs : Json := .arr []
  children : List CaseFileItemB := []

/-- Modelled from the spec: the missing `models.CaseFileModel` of the
`CMMNParser` dialect. -/
structure CaseFileModelB where
  id : Json
  case_file_items : List CaseFileItemB := []

/-- Modelled from the spec: the missing `models.Stage` of the `CMMNParser`
dialect (split-bucket dialect: plan-item references and definition buckets
are separate lists). -/
structure StageB where
  id : Json
  name : Json
  documentation : Json := .null
  auto_complete : Json
  plan_items : List PlanItemB := []
  sentries : List SentryB := []
  case_file_items : List CaseFileItemB := []
  task_definitions : List TaskB := []
  event_definitions : List EventListenerB := []
  milestone_definitions : List MilestoneB := []
  stage_definitions : List StageB := []
  criteria_definitions : List CriterionB := []

/-- Modelled from the spec: the missing `models.CasePlanModel` of the
`CMMNParser` dialect, with the definition buckets
(`_task_definitions`, …). -/
structure CasePlanModelB where
  id : Json
  name : Json
  documentation : Json
  auto_complete : Json
  plan_items : List PlanItemB := []
  sentries : List SentryB := []
  case_file_items : List CaseFileItemB := []
  task_definitions : List TaskB := []
  event_definitions : List EventListenerB := []
  milestone_definitions : List MilestoneB := []
  stage_definitions : List StageB := []
  criteria_definitions : List CriterionB := []

/-- Modelled from the spec: the missing `models.Case` of the `CMMNParser`
dialect. -/
structure CaseB where
  id : Json
  name : Json
  documentation : Json := .null
  case_file_model : Option CaseFileModelB := none
  case_plan_model : Option CasePlanModelB := none
  case_roles : List RoleB := []

/-- Modelled from the spec: the missing `models.CMMNDefinition` (singular)
root of the `CMMNParser` dialect, with the fields `parser.py` populates. -/
structure CMMNDefinition where
  target_namespace : Json
  expression_language : Json
  exporter : Json
  exporter_version : Json
  cases : List CaseB := []

/-! ### JSON building methods of `CMMNParser` (`parser.py`) -/

/-- `CMMNParser._parse_json_item_control`. -/
def CMMNParser.parse_json_item_control : Json → Except PyErr ItemControlB
  | data@(.obj _) =>
    .ok
      { required_rule := data.get "requiredRule"
        repetition_rule := data.get "repetitionRule"
        manual_activation_rule := data.get "manualActivationRule" }
  | _ => .error pyAttrError

/-- `CMMNParser._parse_json_plan_item`. -/
def CMMNParser.parse_json_plan_item : Json → Except PyErr PlanItemB
  | data@(.obj _) => do
    let idv ← data.index "id"
    let ic ←
      if data.hasKey "itemControl" then
        (CMMNParser.parse_json_item_control (data.get "itemControl")).map some
      else .ok none
    .ok
      { id := idv, name := data.get "name",
        documentation := data.get "documentation",
        definition_ref := data.get "definitionRef",
        entry_criteria := data.getD "entryCriteria" (.arr []),
        exit_criteria := data.getD "exitCriteria" (.arr []),
        reactivation_criteria := data.getD "reactivationCriteria" (.arr []),
        item_control := ic }
  | _ => .error pyAttrError

/-- `CMMNParser._parse_json_on_part`. -/
def CMMNParser.parse_json_on_part : Json → Except PyErr OnPartB
  | data@(.obj _) => do
    let idv ← data.index "id"
    .ok
      { id := idv, source_ref := data.get "sourceRef",
        standard_event := data.get "standardEvent" }
  | _ => .error pyAttrError

/-- `CMMNParser._parse_json_if_part`. -/
def CMMNParser.parse_json_if_part : Json → Except PyErr IfPartB
  | data@(.obj _) => do
    let idv ← data.index "id"
    .ok { id := idv, condition := data.get "condition" }
  | _ => .error pyAttrError

/-- `CMMNParser._parse_json_sentry`. -/
def CMMNParser.parse_json_sentry : Json → Except PyErr SentryB
  | data@(.obj _) => do
    let idv ← data.index "id"
    let on_parts ←
      if data.hasKey "onParts" then
        listEx CMMNParser.parse_json_on_part (data.get "onParts")
      else .ok []
    let if_part ←
      if data.hasKey "ifPart" then
        (CMMNParser.parse_json_if_part (data.get "ifPart")).map some
      else .ok none
    .ok
      { id := idv, name := data.get "name",
        documentation := data.get "documentation", on_parts := on_parts,
        if_part := if_part }
  | _ => .error pyAttrError

/-- `CMMNParser._parse_json_task`: structural discrimination — the first of
`performer`/`processRef`/`caseRef` present selects the variant, `HumanTask`
is the fallback; `data["id"]` must be present (a missing id raises
`KeyError`). -/
def CMMNParser.parse_json_task : Json → Except PyErr TaskB
  | data@(.obj _) => do
    let idv ← data.index "id"
    let b : TaskBaseB :=
      { id := idv, name := data.get "name",
        documentation := data.get "documentation",
        is_blocking := data.getD "isBlocking" (.bool true) }
    if data.hasKey "performer" then .ok (.human b (data.get "performer"))
    else if data.hasKey "processRef" then .ok (.process b (data.get "processRef"))
    else if data.hasKey "caseRef" then .ok (.caseTask b (data.get "caseRef"))
    else .ok (.human b .null)
  | _ => .error pyAttrError

/-- `CMMNParser._parse_json_event`. -/
def CMMNParser.parse_json_event : Json → Except PyErr EventListenerB
  | data@(.obj _) => do
    let idv ← data.index "id"
    if data.hasKey "timerExpression" then
      .ok
        (.timer idv (data.get "name") (data.get "documentation")
          (data.get "timerExpression"))
    else if data.hasKey "authorizedRoleRefs" then
      .ok
        (.user idv (data.get "name") (data.get "documentation")
          (data.get "authorizedRoleRefs"))
    else
      .ok (.user idv (data.get "name") (data.get "documentation") (.arr []))
  | _ => .error pyAttrError

/-- `CMMNParser._parse_json_milestone`. -/
def CMMNParser.parse_json_milestone : Json → Except PyErr MilestoneB
  | data@(.obj _) => do
    let idv ← data.index "id"
    .ok
      { id := idv, name := data.get "name",
        documentation := data.get "documentation" }
  | _ => .error pyAttrError

/-- `CMMNParser._parse_json_criterion`: the explicit `type` field selects
`ExitCriterion` when it equals `"exit"`, everything else yields
`EntryCriterion`. -/
def CMMNParser.parse_json_criterion : Json → Except PyErr CriterionB
  | data@(.obj _) => do
    let idv ← data.index "id"
    if (data.get "type").eqStr "exit" then
      .ok
        (.exit idv (data.get "name") (data.get "documentation")
          (data.get "sentryRef"))
    else
      .ok
        (.entry idv (data.get "name") (data.get "documentation")
          (data.get "sentryRef"))
  | _ => .error pyAttrError

/-- `CMMNParser._parse_json_role`. -/
def CMMNParser.parse_json_role : Json → Except PyErr RoleB
  | data@(.obj _) => do
    let idv ← data.index "id"
    .ok { id := idv, name := data.get "name" }
  | _ => .error pyAttrError

/-- `CMMNParser._parse_json_case_file_item`, recursive through `children`;
the fuel bounds the recursion depth (callers pass the size of the value, so
fuel never runs out on actual data). -/
def CMMNParser.parse_json_case_file_item_fueled :
    Nat → Json → Except PyErr CaseFileItemB
  | 0, _ => .error (.typeError "maximum recursion depth exceeded")
  | fuel + 1, data =>
    match data with
    | .obj _ => do
      let idv ← data.index "id"
      let children ←
        if data.hasKey "children" then
          listEx (CMMNParser.parse_json_case_file_item_fueled fuel)
            (data.get "children")
        else .ok []
      .ok
        { id := idv, name := data.get "name",
          documentation := data.get "documentation",
          definition_type := data.get "definitionType",
          multiplicity := data.get "multiplicity",
          source_ref := data.get "sourceRef",
          target_refs := data.getD "targetRefs" (.arr []),
          children := children }
    | _ => .error pyAttrError

/-- CPython's default recursion limit: Python itself aborts recursion
(`RecursionError`) beyond roughly this depth, so it is the natural fuel for
the recursive walks modelled with fuel. -/
def pyRecursionLimit : Nat := 1000

/-- `CMMNParser._parse_json_case_file_item` at adequate fuel. -/
def CMMNParser.parse_json_case_file_item (data : Json) :
    Except PyErr CaseFileItemB :=
  CMMNParser.parse_json_case_file_item_fueled pyRecursionLimit data

/-- `CMMNParser._parse_json_case_file_model`. -/
def CMMNParser.parse_json_case_file_model : Json → Except PyErr CaseFileModelB
  | data@(.obj _) => do
    let idv ← data.index "id"
    let items ←
      if data.hasKey "caseFileItems" then
        listEx CMMNParser.parse_json_case_file_item (data.get "caseFileItems")
      else .ok []
    .ok { id := idv, case_file_items := items }
  | _ => .error pyAttrError

/-- `CMMNParser._parse_json_stage`. -/
def CMMNParser.parse_json_stage : Json → Except PyErr StageB
  | data@(.obj _) => do
    let idv ← data.index "id"
    let plan_items ←
      if data.hasKey "planItems" then
        listEx CMMNParser.parse_json_plan_item (data.get "planItems")
      else .ok []
    let sentries ←
      if data.hasKey "sentries" then
        listEx CMMNParser.parse_json_sentry (data.get "sentries")
      else .ok []
    let case_file_items ←
      if data.hasKey "caseFileItems" then
        listEx CMMNParser.parse_json_case_file_item (data.get "caseFileItems")
      else .ok []
    .ok
      { id := idv, name := data.get "name",
        documentation := data.get "documentation",
        auto_complete := data.getD "autoComplete" (.bool false),
        plan_items := plan_items, sentries := sentries,
        case_file_items := case_file_items, stage_definitions := [] }
  | _ => .error pyAttrError

/-- `CMMNParser._parse_json_case_plan_model` with `_parse_plan_model_items`
and `_parse_plan_model_definitions`. -/
def CMMNParser.parse_json_case_plan_model : Json → Except PyErr CasePlanModelB
  | data@(.obj _) => do
    let idv ← data.index "id"
    let plan_items ←
      if data.hasKey "planItems" then
        listEx CMMNParser.parse_json_plan_item (data.get "planItems")
      else .ok []
    let sentries ←
      if data.hasKey "sentries" then
        listEx CMMNParser.parse_json_sentry (data.get "sentries")
      else .ok []
    let case_file_items ←
      if data.hasKey "caseFileItems" then
        listEx CMMNParser.parse_json_case_file_item (data.get "caseFileItems")
      else .ok []
    let task_definitions ←
      if data.hasKey "taskDefinitions" then
        listEx CMMNParser.parse_json_task (data.get "taskDefinitions")
      else .ok []
    let event_definitions ←
      if data.hasKey "eventDefinitions" then
        listEx CMMNParser.parse_json_event (data.get "eventDefinitions")
      else .ok []
    let milestone_definitions ←
      if data.hasKey "milestoneDefinitions" then
        listEx CMMNParser.parse_json_milestone (data.get "milestoneDefinitions")
      else .ok []
    let stage_definitions ←
      if data.hasKey "stageDefinitions" then
        listEx CMMNParser.parse_json_stage (data.get "stageDefinitions")
      else .ok []
    let criteria_definitions ←
      if data.hasKey "criteriaDefinitions" then
        listEx CMMNParser.parse_json_criterion (data.get "criteriaDefinitions")
      else .ok []
    .ok
      { id := idv, name := data.get "name",
        documentation := data.get "documentation",
        auto_complete := data.getD "autoComplete" (.bool false),
        plan_items := plan_items, sentries := sentries,
        case_file_items := case_file_items,
        task_definitions := task_definitions,
        event_definitions := event_definitions,
        milestone_definitions := milestone_definitions,
        stage_definitions := stage_definitions,
        criteria_definitions := criteria_definitions }
  | _ => .error pyAttrError

/-- `CMMNParser._parse_json_case`. -/
def CMMNParser.parse_json_case : Json → Except PyErr CaseB
  | data@(.obj _) => do
    let idv ← data.index "id"
    let cfm ←
      if data.hasKey "caseFileModel" then
        (CMMNParser.parse_json_case_file_model (data.get "caseFileModel")).map
          some
      else .ok none
    let cpm ←
      if data.hasKey "casePlanModel" then
        (CMMNParser.parse_json_case_plan_model (data.get "casePlanModel")).map
          some
      else .ok none
    let roles ←
      if data.hasKey "caseRoles" then
        listEx CMMNParser.parse_json_role (data.get "caseRoles")
      else .ok []
    .ok
      { id := idv, name := data.get "name",
        documentation := data.get "documentation", case_file_model := cfm,
        case_plan_model := cpm, case_roles := roles }
  | _ => .error pyAttrError

/-- `CMMNParser._parse_json_data`: requires the top-level `definitions` key
(`data["definitions"]` raises `KeyError` otherwise) and a `cases` key under
it. -/
def CMMNParser.parse_json_data (data : Json) : Except PyErr CMMNDefinition := do
  let dd ← data.index "definitions"
  match dd with
  | .obj _ => do
    let casesRaw ← dd.index "cases"
    let cases ← listEx CMMNParser.parse_json_case casesRaw
    .ok
      { target_namespace := dd.get "targetNamespace",
        expression_language := dd.get "expressionLanguage",
        exporter := dd.get "exporter",
        exporter_version := dd.get "exporterVersion", cases := cases }
  | _ => .error pyAttrError

/-! ### JSON-schema validation

A small checker for the draft-07 subset the repository's two schemas use:
`type` object/array/string/boolean, `properties` (validating only present
keys), `required`, `enum`, `items`, `additionalProperties`.  The checker
reports the first violation with a jsonschema-style message. -/

/-- The draft-07 subset used by the CMMN schemas. -/
inductive Schema where
  | jobject (required : List String) (props : List (String × Schema))
      (additional : Bool)
  | jarray (item : Schema)
  | jstring
  | jboolean
  | jenum (vals : List String)
  | jref (name : String)
  | jany

/-- Schema lookup in a definitions environment. -/
def lookupSchema : List (String × Schema) → String → Option Schema
  | [], _ => none
  | (k, s) :: rest, n => if k = n then some s else lookupSchema rest n

/-- Check a value against a schema (fuel bounds `jref`/nesting depth;
structural recursion on the fuel so that checks on concrete documents
evaluate definitionally).  Arrays and object members are traversed with a
fold whose accumulator keeps the first violation. -/
def schemaCheck (env : List (String × Schema)) :
    Nat → Schema → Json → Except String Unit
  | 0, _, _ => .error "schema depth limit exceeded"
  | fuel + 1, sch, v =>
    match sch with
    | .jany => .ok ()
    | .jstring =>
      match v with
      | .str _ => .ok ()
      | _ => .error "value is not of type 'string'"
    | .jboolean =>
      match v with
      | .bool _ => .ok ()
      | _ => .error "value is not of type 'boolean'"
    | .jenum vals =>
      match v with
      | .str s =>
        if s ∈ vals then .ok ()
        else .error ("'" ++ s ++ "' is not one of the permitted values")
      | _ => .error "value is not one of the permitted values"
    | .jref n =>
      match lookupSchema env n with
      | some sub => schemaCheck env fuel sub v
      | none => .error ("unresolvable reference '" ++ n ++ "'")
    | .jarray item =>
      match v with
      | .arr xs =>
        xs.foldl
          (fun acc x => acc >>= fun _ => schemaCheck env fuel item x) (.ok ())
      | _ => .error "value is not of type 'array'"
    | .jobject required props additional =>
      match v with
      | .obj kvs =>
        match required.find? (fun k => !(Json.lookupKey kvs k).isSome) with
        | some k => .error ("'" ++ k ++ "' is a required property")
        | none =>
          kvs.foldl
            (fun acc kv =>
              acc >>= fun _ =>
                match lookupSchema props kv.1 with
                | some sub => schemaCheck env fuel sub kv.2
                | none =>
                  if additional then .ok ()
                  else
                    .error
                      ("Additional properties are not allowed ('" ++ kv.1 ++
                        "' was unexpected)"))
            (.ok ())
      | _ => .error "value is not of type 'object'"

/-- The inline JSON schema `CMMNValidator._load_json_schema` builds
(`validator.py` lines 106–307), transcribed clause by clause: no `required`
lists anywhere, no `enum` anywhere, `additionalProperties` closed only at
the top level. -/
def validatorInlineSchema : Schema :=
  let planItemSch : Schema :=
    .jobject [] [("id", .jstring), ("name", .jstring),
      ("definitionRef", .jstring), ("entryCriteria", .jarray .jstring),
      ("exitCriteria", .jarray .jstring)] true
  let sentrySch : Schema :=
    .jobject [] [("id", .jstring), ("name", .jstring),
      ("onPart", .jarray .jstring), ("ifPart", .jstring)] true
  let stageSch : Schema :=
    .jobject [] [("id", .jstring), ("name", .jstring),
      ("autoComplete", .jboolean), ("planItems", .jarray planItemSch)] true
  let taskSch : Schema :=
    .jobject [] [("id", .jstring), ("name", .jstring), ("type", .jstring),
      ("isBlocking", .jboolean), ("taskType", .jstring),
      ("performer", .jstring), ("formKey", .jstring),
      ("processRef", .jstring), ("caseRef", .jstring),
      ("decisionRef", .jstring)] true
  let milestoneSch : Schema :=
    .jobject [] [("id", .jstring), ("name", .jstring),
      ("description", .jstring)] true
  let cpmSch : Schema :=
    .jobject [] [("id", .jstring), ("name", .jstring),
      ("autoComplete", .jboolean), ("planItems", .jarray planItemSch),
      ("sentries", .jarray sentrySch), ("stages", .jarray stageSch),
      ("tasks", .jarray taskSch), ("milestones", .jarray milestoneSch)] true
  let cfmSch : Schema :=
    .jobject [] [("id", .jstring), ("name", .jstring),
      ("caseFileItems", .jarray .jstring)] true
  let caseSch : Schema :=
    .jobject [] [("id", .jstring), ("name", .jstring),
      ("description", .jstring), ("casePlanModel", cpmSch),
      ("caseFileModel", cfmSch)] true
  let importSch : Schema :=
    .jobject [] [("id", .jstring), ("namespace", .jstring),
      ("location", .jstring), ("importType", .jstring)] true
  let cfidSch : Schema :=
    .jobject [] [("id", .jstring), ("name", .jstring),
      ("description", .jstring), ("structureRef", .jstring),
      ("definitiveProperty", .jarray .jstring)] true
  let processSch : Schema :=
    .jobject [] [("id", .jstring), ("name", .jstring),
      ("description", .jstring), ("isExecutable", .jboolean),
      ("implementationType", .jstring)] true
  let decisionSch : Schema :=
    .jobject [] [("id", .jstring), ("name", .jstring),
      ("description", .jstring), ("decisionLogic", .jstring)] true
  .jobject []
    [("id", .jstring), ("name", .jstring), ("targetNamespace", .jstring),
     ("expressionLanguage", .jstring), ("exporter", .jstring),
     ("exporterVersion", .jstring), ("author", .jstring),
     ("creationDate", .jstring), ("imports", .jarray importSch),
     ("caseFileItemDefinitions", .jarray cfidSch),
     ("cases", .jarray caseSch), ("processes", .jarray processSch),
     ("decisions", .jarray decisionSch),
     ("extensionElements", .jobject [] [] true)]
    false

/-- `CMMNValidator.validate_json` (`validator.py`): check against the
inline schema; a violation raises
`CMMNValidationError("JSON validation failed: …")`. -/
def CMMNValidator.validate_json (json_data : Json) : Except PyErr Bool :=
  match schemaCheck [] pyRecursionLimit validatorInlineSchema json_data with
  | .ok _ => .ok true
  | .error m => .error (.cmmnValidationError ("JSON validation failed: " ++ m))

/-- The fixed multiplicity enumeration of the CMMN JSON schema. -/
def multiplicityEnum : List String :=
  ["ZeroOrOne", "ZeroOrMore", "One", "OneOrMore"]

/-- The fixed standard-event enumeration of the CMMN JSON schema (the CMMN
plan-item/milestone lifecycle transitions, including the spec's examples
`complete` and `occur`). -/
def standardEventEnum : List String :=
  ["close", "complete", "create", "disable", "enable", "exit", "fault",
   "manualStart", "occur", "parentResume", "parentSuspend", "reactivate",
   "reenable", "resume", "start", "suspend", "terminate"]

/-- Modelled from the spec: `schema.json`, the bundled schema document
loaded by `validation.load_cmmn_schema` and `CMMNParser._load_json_schema`,
is not among the sources.  Per §4.5 it is a draft-07 schema with
required-field checks (every case — and plan item, sentry, on-part, if-part
— needs an `id`), enum checks for `multiplicity` and `standardEvent`, type
checks, and `additionalProperties` closed at the top level but open inside
extension regions.  The document shape (a top-level `definitions` wrapper
whose `cases` list is required) follows §4.3/§8. -/
def cmmnSchemaJsonEnv : List (String × Schema) :=
  [("Role", .jobject ["id"] [("id", .jstring), ("name", .jstring)] true),
   ("ItemControl",
    .jobject []
      [("requiredRule", .jstring), ("repetitionRule", .jstring),
       ("manualActivationRule", .jstring)] true),
   ("PlanItem",
    .jobject ["id"]
      [("id", .jstring), ("name", .jstring), ("documentation", .jstring),
       ("definitionRef", .jstring), ("entryCriteria", .jarray .jstring),
       ("exitCriteria", .jarray .jstring),
       ("reactivationCriteria", .jarray .jstring),
       ("itemControl", .jref "ItemControl")] true),
   ("OnPart",
    .jobject ["id"]
      [("id", .jstring), ("sourceRef", .jstring),
       ("standardEvent", .jenum standardEventEnum)] true),
   ("IfPart",
    .jobject ["id"] [("id", .jstring), ("condition", .jstring)] true),
   ("Sentry",
    .jobject ["id"]
      [("id", .jstring), ("name", .jstring), ("documentation", .jstring),
       ("onParts", .jarray (.jref "OnPart")), ("ifPart", .jref "IfPart")]
      true),
   ("CaseFileItem",
    .jobject ["id"]
      [("id", .jstring), ("name", .jstring), ("documentation", .jstring),
       ("definitionType", .jstring),
       ("multiplicity", .jenum multiplicityEnum), ("sourceRef", .jstring),
       ("targetRefs", .jarray .jstring),
       ("children", .jarray (.jref "CaseFileItem"))] true),
   ("CaseFileModel",
    .jobject ["id"]
      [("id", .jstring), ("caseFileItems", .jarray (.jref "CaseFileItem"))]
      true),
   ("Task",
    .jobject ["id"]
      [("id", .jstring), ("name", .jstring), ("documentation", .jstring),
       ("isBlocking", .jboolean), ("performer", .jstring),
       ("processRef", .jstring), ("caseRef", .jstring)] true),
   ("EventListener",
    .jobject ["id"]
      [("id", .jstring), ("name", .jstring), ("documentation", .jstring),
       ("timerExpression", .jstring),
       ("authorizedRoleRefs", .jarray .jstring)] true),
   ("Milestone",
    .jobject ["id"]
      [("id", .jstring), ("name", .jstring), ("documentation", .jstring)]
      true),
   ("Criterion",
    .jobject ["id"]
      [("id", .jstring), ("name", .jstring), ("documentation", .jstring),
       ("sentryRef", .jstring), ("type", .jstring)] true),
   ("Stage",
    .jobject ["id"]
      [("id", .jstring), ("name", .jstring), ("documentation", .jstring),
       ("autoComplete", .jboolean), ("planItems", .jarray (.jref "PlanItem")),
       ("sentries", .jarray (.jref "Sentry")),
       ("caseFileItems", .jarray (.jref "CaseFileItem"))] true),
   ("CasePlanModel",
    .jobject ["id"]
      [("id", .jstring), ("name", .jstring), ("documentation", .jstring),
       ("autoComplete", .jboolean), ("planItems", .jarray (.jref "PlanItem")),
       ("sentries", .jarray (.jref "Sentry")),
       ("caseFileItems", .jarray (.jref "CaseFileItem")),
       ("taskDefinitions", .jarray (.jref "Task")),
       ("eventDefinitions", .jarray (.jref "EventListener")),
       ("milestoneDefinitions", .jarray (.jref "Milestone")),
       ("stageDefinitions", .jarray (.jref "Stage")),
       ("criteriaDefinitions", .jarray (.jref "Criterion"))] true),
   ("Case",
    .jobject ["id"]
      [("id", .jstring), ("name", .jstring), ("documentation", .jstring),
       ("caseFileModel", .jref "CaseFileModel"),
       ("casePlanModel", .jref "CasePlanModel"),
       ("caseRoles", .jarray (.jref "Role"))] true)]

/-- Modelled from the spec: the root of the missing `schema.json`. -/
def cmmnSchemaJson : Schema :=
  .jobject []
    [("definitions",
      .jobject ["cases"]
        [("targetNamespace", .jstring), ("expressionLanguage", .jstring),
         ("exporter", .jstring), ("exporterVersion", .jstring),
         ("cases", .jarray (.jref "Case"))] true)]
    false

/-- `validation.validate_cmmn_json` on already-decoded data: check against
the (spec-modelled) `schema.json`; a violation raises
`CMMNParseError("JSON validation failed: …")`. -/
def validate_cmmn_json (data : Json) : Except PyErr Bool :=
  match schemaCheck cmmnSchemaJsonEnv pyRecursionLimit cmmnSchemaJson
      data with
  | .ok _ => .ok true
  | .error m => .error (.cmmnParseError ("JSON validation failed: " ++ m))

/-- `CMMNParser.validate_json` on already-decoded data (`parser.py` lines
55–73): the same `schema.json` check and the same
`CMMNParseError("JSON validation failed: …")` wrapping. -/
def CMMNParser.validate_json (cmmn_data : Json) : Except PyErr Bool :=
  validate_cmmn_json cmmn_data

/-! ### The standard-library JSON codec (`json.dumps` / `json.loads`)

`parse_cmmn_json` serializes dictionary input with `json.dumps` and
`parse_json_string` decodes with `json.loads`; both are modelled here
(CPython's `ensure_ascii` escaping; numbers restricted to integers, the
only numbers in the model). -/

/-- Lowercase hex digit, by code point. -/
def hexDigit (n : Nat) : Char :=
  Char.ofNat (if n < 10 then 48 + n else 87 + n)

/-- Four lowercase hex digits, as in a `\uXXXX` escape. -/
def hex4 (n : Nat) : List Char :=
  [hexDigit (n / 4096 % 16), hexDigit (n / 256 % 16), hexDigit (n / 16 % 16),
   hexDigit (n % 16)]

/-- CPython `ensure_ascii` escaping of one character. -/
def escChar (c : Char) : List Char :=
  if c = '"' then ['\\', '"']
  else if c = '\\' then ['\\', '\\']
  else if c = '\n' then ['\\', 'n']
  else if c = '\t' then ['\\', 't']
  else if c = '\r' then ['\\', 'r']
  else if c = '\x08' then ['\\', 'b']
  else if c = '\x0c' then ['\\', 'f']
  else if c.toNat < 0x20 || c.toNat > 0x7e then
    if c.toNat < 0x10000 then '\\' :: 'u' :: hex4 c.toNat
    else
      ('\\' :: 'u' :: hex4 (0xd800 + (c.toNat - 0x10000) / 0x400)) ++
        ('\\' :: 'u' :: hex4 (0xdc00 + (c.toNat - 0x10000) % 0x400))
  else [c]

/-- Escape a whole string body. -/
def escapeChars (cs : List Char) : List Char :=
  cs.foldr (fun c acc => escChar c ++ acc) []

/-- A JSON string literal with quotes. -/
def dumpString (s : String) : String :=
  "\"" ++ String.mk (escapeChars s.data) ++ "\""

mutual
/-- `json.dumps` with the default separators `", "` and `": "`. -/
def Json.dumps : Json → String
  | .null => "null"
  | .bool true => "true"
  | .bool false => "false"
  | .num n => toString n
  | .str s => dumpString s
  | .arr xs => "[" ++ Json.dumpsArr xs ++ "]"
  | .obj kvs => "\x7b" ++ Json.dumpsObj kvs ++ "\x7d"
/-- Array body. -/
def Json.dumpsArr : List Json → String
  | [] => ""
  | [x] => Json.dumps x
  | x :: xs => Json.dumps x ++ ", " ++ Json.dumpsArr xs
/-- Object body. -/
def Json.dumpsObj : List (String × Json) → String
  | [] => ""
  | [kv] => dumpString kv.1 ++ ": " ++ Json.dumps kv.2
  | kv :: kvs => dumpString kv.1 ++ ": " ++ Json.dumps kv.2 ++ ", " ++
      Json.dumpsObj kvs
end

/-- JSON whitespace. -/
def jsonWs (c : Char) : Bool :=
  c = ' ' || c = '\t' || c = '\n' || c = '\r'

/-- Skip insignificant whitespace. -/
def skipJsonWs (cs : List Char) : List Char :=
  cs.dropWhile jsonWs

/-- Value of a hexadecimal digit character, by code point. -/
def hexVal (c : Char) : Option Nat :=
  let n := c.toNat
  if 48 ≤ n ∧ n ≤ 57 then some (n - 48)
  else if 97 ≤ n ∧ n ≤ 102 then some (n - 87)
  else if 65 ≤ n ∧ n ≤ 70 then some (n - 55)
  else none

/-- Four hex digits of a `\uXXXX` escape. -/
def parseHex4 : List Char → Except String (Nat × List Char)
  | a :: b :: c :: d :: rest =>
    match hexVal a, hexVal b, hexVal c, hexVal d with
    | some x, some y, some z, some w =>
      .ok (x * 4096 + y * 256 + z * 16 + w, rest)
    | _, _, _, _ => .error "Invalid \\uXXXX escape"
  | _ => .error "Invalid \\uXXXX escape"

/-- Body of a JSON string after the opening quote (fuelled; escapes,
including surrogate pairs, are decoded). -/
def parseStringBody : Nat → List Char → Except String (List Char × List Char)
  | 0, _ => .error "Unterminated string"
  | _, [] => .error "Unterminated string starting at"
  | fuel + 1, c :: cs =>
    if c = '"' then .ok ([], cs)
    else if c = '\\' then
      match cs with
      | [] => .error "Unterminated string starting at"
      | e :: cs' =>
        if e = 'u' then do
          let (n, rest) ← parseHex4 cs'
          if 0xd800 ≤ n ∧ n ≤ 0xdbff then
            match rest with
            | '\\' :: 'u' :: rest' => do
              let (n2, rest2) ← parseHex4 rest'
              if 0xdc00 ≤ n2 ∧ n2 ≤ 0xdfff then do
                let (body, after) ← parseStringBody fuel rest2
                .ok
                  (Char.ofNat
                      (0x10000 + (n - 0xd800) * 0x400 + (n2 - 0xdc00)) ::
                    body, after)
              else do
                let (body, after) ← parseStringBody fuel ('\\' :: 'u' :: rest')
                .ok (Char.ofNat n :: body, after)
            | _ => do
              let (body, after) ← parseStringBody fuel rest
              .ok (Char.ofNat n :: body, after)
          else do
            let (body, after) ← parseStringBody fuel rest
            .ok (Char.ofNat n :: body, after)
        else do
          let esc ←
            if e = '"' then .ok '"'
            else if e = '\\' then .ok '\\'
            else if e = '/' then .ok '/'
            else if e = 'b' then .ok '\x08'
            else if e = 'f' then .ok '\x0c'
            else if e = 'n' then .ok '\n'
            else if e = 'r' then .ok '\r'
            else if e = 't' then .ok '\t'
            else .error ("Invalid \\escape: " ++ String.mk [e])
          let (body, after) ← parseStringBody fuel cs'
          .ok (esc :: body, after)
    else do
      let (body, after) ← parseStringBody fuel cs
      .ok (c :: body, after)

/-- Leading decimal digits. -/
def takeDigitsP : List Char → List Char × List Char
  | [] => ([], [])
  | c :: cs =>
    if c.isDigit then
      let (ds, rest) := takeDigitsP cs
      (c :: ds, rest)
    else ([], c :: cs)

/-- Digit run to a natural number. -/
def digitsToNat (ds : List Char) : Nat :=
  ds.foldl (fun acc c => 10 * acc + (c.toNat - 48)) 0

mutual
/-- `json.loads` value parser (fuelled).  Numbers with a fraction or
exponent are floats, which are outside this model and rejected. -/
def parseJsonVal : Nat → List Char → Except String (Json × List Char)
  | 0, _ => .error "recursion limit"
  | fuel + 1, cs =>
    match skipJsonWs cs with
    | [] => .error "Expecting value"
    | c :: cs' =>
      if c = '"' then do
        let (body, rest) ← parseStringBody (cs'.length + 1) cs'
        .ok (.str (String.mk body), rest)
      else if c = '\x7b' then
        match skipJsonWs cs' with
        | '\x7d' :: rest => .ok (.obj [], rest)
        | rest => do
          let (kvs, rest') ← parseJsonMembers fuel rest
          .ok (.obj kvs, rest')
      else if c = '[' then
        match skipJsonWs cs' with
        | ']' :: rest => .ok (.arr [], rest)
        | rest => do
          let (xs, rest') ← parseJsonElems fuel rest
          .ok (.arr xs, rest')
      else if c = 't' then
        match cs' with
        | 'r' :: 'u' :: 'e' :: rest => .ok (.bool true, rest)
        | _ => .error "Expecting value"
      else if c = 'f' then
        match cs' with
        | 'a' :: 'l' :: 's' :: 'e' :: rest => .ok (.bool false, rest)
        | _ => .error "Expecting value"
      else if c = 'n' then
        match cs' with
        | 'u' :: 'l' :: 'l' :: rest => .ok (.null, rest)
        | _ => .error "Expecting value"
      else if c = '-' || c.isDigit then
        let (ds, rest) :=
          if c = '-' then takeDigitsP cs' else takeDigitsP (c :: cs')
        if ds.isEmpty then .error "Expecting value"
        else
          match rest with
          | '.' :: _ => .error "float values are outside this model"
          | 'e' :: _ => .error "float values are outside this model"
          | 'E' :: _ => .error "float values are outside this model"
          | _ =>
            let n : Int := digitsToNat ds
            .ok (.num (if c = '-' then -n else n), rest)
      else .error "Expecting value"
/-- Object members after the opening brace (at least one member). -/
def parseJsonMembers :
    Nat → List Char → Except String (List (String × Json) × List Char)
  | 0, _ => .error "recursion limit"
  | fuel + 1, cs =>
    match skipJsonWs cs with
    | '"' :: cs' => do
      let (key, rest) ← parseStringBody (cs'.length + 1) cs'
      match skipJsonWs rest with
      | ':' :: rest' => do
        let (v, rest2) ← parseJsonVal fuel rest'
        match skipJsonWs rest2 with
        | ',' :: rest3 => do
          let (kvs, rest4) ← parseJsonMembers fuel rest3
          .ok ((String.mk key, v) :: kvs, rest4)
        | '\x7d' :: rest3 => .ok ([(String.mk key, v)], rest3)
        | _ => .error "Expecting ',' delimiter"
      | _ => .error "Expecting ':' delimiter"
    | _ =>
      .error "Expecting property name enclosed in double quotes"
/-- Array elements after the opening bracket (at least one element). -/
def parseJsonElems : Nat → List Char → Except String (List Json × List Char)
  | 0, _ => .error "recursion limit"
  | fuel + 1, cs => do
    let (v, rest) ← parseJsonVal fuel cs
    match skipJsonWs rest with
    | ',' :: rest' => do
      let (xs, rest2) ← parseJsonElems fuel rest'
      .ok (v :: xs, rest2)
    | ']' :: rest' => .ok ([v], rest')
    | _ => .error "Expecting ',' delimiter"
end

/-- `json.loads`: parse a complete document (nothing but whitespace may
follow the value). -/
def pyJsonLoads (s : String) : Except String Json :=
  match parseJsonVal (s.length * 4 + 16) s.data with
  | .ok (v, rest) =>
    if (skipJsonWs rest).isEmpty then .ok v else .error "Extra data"
  | .error e => .error e

/-! ### XML building methods of `CMMNParser` (`parser.py`)

`findall("cmmn:x")` matches children whose tag is the namespace-qualified
`\x7buri\x7dx`; `find` takes the first match. -/

/-- The model namespace URI (`CMMNParser.CMMN_NAMESPACE`). -/
def cmmnNS : String := "http://www.omg.org/spec/CMMN/20151109/MODEL"

/-- The namespace-qualified tag ElementTree reports for `cmmn:local`. -/
def nsTag (local_name : String) : String :=
  "\x7b" ++ cmmnNS ++ "\x7d" ++ local_name

/-- `element.findall("cmmn:t", namespaces)`. -/
def findallNS (el : XmlElem) (t : String) : List XmlElem :=
  el.children.filter (fun c => c.tag = nsTag t)

/-- `element.find("cmmn:t", namespaces)`: the first match. -/
def findNS (el : XmlElem) (t : String) : Option XmlElem :=
  (findallNS el t).head?

/-- A rule's condition text: `rule.find("cmmn:condition")` then `.text`. -/
def ruleCondition (el : XmlElem) (rule : String) : Json :=
  match findNS el rule with
  | some r =>
    match findNS r "condition" with
    | some c => optStr c.text
    | none => .null
  | none => .null

/-- `CMMNParser._parse_item_control`. -/
def CMMNParser.parse_item_control (el : XmlElem) : ItemControlB :=
  { required_rule := ruleCondition el "requiredRule"
    repetition_rule := ruleCondition el "repetitionRule"
    manual_activation_rule := ruleCondition el "manualActivationRule" }

/-- `CMMNParser._parse_plan_item`: the space-separated
`entryCriteriaRefs`/`exitCriteriaRefs` attributes are split on whitespace;
an absent (or empty) attribute leaves the dataclass default, the empty
list. -/
def CMMNParser.parse_plan_item (el : XmlElem) : PlanItemB :=
  let entry := el.getD "entryCriteriaRefs" ""
  let exit := el.getD "exitCriteriaRefs" ""
  { id := Json.str (el.getD "id" "")
    name := optStr (el.get "name")
    documentation := .null
    definition_ref := optStr (el.get "definitionRef")
    entry_criteria :=
      if entry ≠ "" then Json.arr ((pySplit entry).map Json.str)
      else Json.arr []
    exit_criteria :=
      if exit ≠ "" then Json.arr ((pySplit exit).map Json.str)
      else Json.arr []
    reactivation_criteria := Json.arr []
    item_control := (findNS el "itemControl").map CMMNParser.parse_item_control }

/-- `CMMNParser._parse_sentry`. -/
def CMMNParser.parse_sentry (el : XmlElem) : SentryB :=
  { id := Json.str (el.getD "id" "")
    name := optStr (el.get "name")
    documentation := .null
    on_parts :=
      (findallNS el "onPart").map fun op =>
        { id := Json.str (op.getD "id" "")
          source_ref := optStr (op.get "sourceRef")
          standard_event :=
            match findNS op "standardEvent" with
            | some se => optStr se.text
            | none => .null }
    if_part :=
      (findNS el "ifPart").map fun ip =>
        { id := Json.str (ip.getD "id" "")
          condition :=
            match findNS ip "condition" with
            | some c => optStr c.text
            | none => .null } }

/-- A `findall` result is structurally smaller than its parent (for the
recursive XML walks). -/
theorem sizeOf_mem_findallNS {c el : XmlElem} {t : String}
    (h : c ∈ findallNS el t) : sizeOf c < sizeOf el := by
  cases el with
  | mk tag attrs text children =>
    simp only [findallNS, XmlElem.children, List.mem_filter] at h
    have h2 := List.sizeOf_lt_of_mem h.1
    simp only [XmlElem.mk.sizeOf_spec]
    omega

/-- `CMMNParser._parse_case_file_item`, recursive over nested
`caseFileItem` children. -/
def CMMNParser.parse_case_file_item : XmlElem → CaseFileItemB
  | el =>
    let targets := el.getD "targetRefs" ""
    { id := Json.str (el.getD "id" "")
      name := optStr (el.get "name")
      documentation := .null
      definition_type := optStr (el.get "definitionType")
      multiplicity := optStr (el.get "multiplicity")
      source_ref := optStr (el.get "sourceRef")
      target_refs :=
        if targets ≠ "" then Json.arr ((pySplit targets).map Json.str)
        else Json.arr []
      children :=
        (findallNS el "caseFileItem").attach.map fun c =>
          CMMNParser.parse_case_file_item c.1 }
termination_by el => sizeOf el
decreasing_by
  exact sizeOf_mem_findallNS c.2

/-- `CMMNParser._parse_stage_content`: the plan items, sentries and case
file items of a stage element. -/
def CMMNParser.parse_stage_content (el : XmlElem) :
    List PlanItemB × List SentryB × List CaseFileItemB :=
  ((findallNS el "planItem").map CMMNParser.parse_plan_item,
   (findallNS el "sentry").map CMMNParser.parse_sentry,
   (findallNS el "caseFileItem").map CMMNParser.parse_case_file_item)

/-- `CMMNParser._parse_task_definitions`: human, process and case tasks are
gathered by category (three separate `findall` loops), then nested `stage`
elements are parsed recursively (stage content plus their own task and
stage buckets). -/
def CMMNParser.parse_task_definitions : XmlElem → List TaskB × List StageB
  | el =>
    let humans := (findallNS el "humanTask").map fun t =>
      TaskB.human
        { id := Json.str (t.getD "id" ""), name := optStr (t.get "name"),
          documentation := .null,
          is_blocking := Json.bool (pyLower (t.getD "isBlocking" "true") = "true") }
        (optStr (t.get "performer"))
    let procs := (findallNS el "processTask").map fun t =>
      TaskB.process
        { id := Json.str (t.getD "id" ""), name := optStr (t.get "name"),
          documentation := .null,
          is_blocking := Json.bool (pyLower (t.getD "isBlocking" "true") = "true") }
        (optStr (t.get "processRef"))
    let caseTasks := (findallNS el "caseTask").map fun t =>
      TaskB.caseTask
        { id := Json.str (t.getD "id" ""), name := optStr (t.get "name"),
          documentation := .null,
          is_blocking := Json.bool (pyLower (t.getD "isBlocking" "true") = "true") }
        (optStr (t.get "caseRef"))
    let stages := (findallNS el "stage").attach.map fun st =>
      let content := CMMNParser.parse_stage_content st.1
      let buckets := CMMNParser.parse_task_definitions st.1
      { id := Json.str (st.1.getD "id" "")
        name := optStr (st.1.get "name")
        documentation := .null
        auto_complete :=
          Json.bool (pyLower (st.1.getD "autoComplete" "false") = "true")
        plan_items := content.1
        sentries := content.2.1
        case_file_items := content.2.2
        task_definitions := buckets.1
        stage_definitions := buckets.2 : StageB }
    (humans ++ procs ++ caseTasks, stages)
termination_by el => sizeOf el
decreasing_by
  exact sizeOf_mem_findallNS st.2

/-- `CMMNParser._parse_event_definitions`. -/
def CMMNParser.parse_event_definitions (el : XmlElem) : List EventListenerB :=
  ((findallNS el "timerEventListener").map fun e =>
    EventListenerB.timer (Json.str (e.getD "id" "")) (optStr (e.get "name"))
      .null
      (match findNS e "timerExpression" with
       | some te => optStr te.text
       | none => .null)) ++
    (findallNS el "userEventListener").map fun e =>
      EventListenerB.user (Json.str (e.getD "id" "")) (optStr (e.get "name"))
        .null
        (let roles := e.getD "authorizedRoleRefs" ""
         if roles ≠ "" then Json.arr ((pySplit roles).map Json.str)
         else Json.arr [])

/-- `CMMNParser._parse_milestone_definitions`. -/
def CMMNParser.parse_milestone_definitions (el : XmlElem) : List MilestoneB :=
  (findallNS el "milestone").map fun m =>
    { id := Json.str (m.getD "id" ""), name := optStr (m.get "name"),
      documentation := .null }

/-- `CMMNParser._parse_criteria_definitions`: entry criteria first, then
exit criteria. -/
def CMMNParser.parse_criteria_definitions (el : XmlElem) : List CriterionB :=
  ((findallNS el "entryCriterion").map fun c =>
    CriterionB.entry (Json.str (c.getD "id" "")) (optStr (c.get "name")) .null
      (optStr (c.get "sentryRef"))) ++
    (findallNS el "exitCriterion").map fun c =>
      CriterionB.exit (Json.str (c.getD "id" "")) (optStr (c.get "name")) .null
        (optStr (c.get "sentryRef"))

/-- `CMMNParser._parse_case_plan_model`. -/
def CMMNParser.parse_case_plan_model (el : XmlElem) : CasePlanModelB :=
  let content := CMMNParser.parse_stage_content el
  let buckets := CMMNParser.parse_task_definitions el
  { id := Json.str (el.getD "id" "")
    name := optStr (el.get "name")
    documentation := .null
    auto_complete := Json.bool (pyLower (el.getD "autoComplete" "false") = "true")
    plan_items := content.1
    sentries := content.2.1
    case_file_items := content.2.2
    task_definitions := buckets.1
    event_definitions := CMMNParser.parse_event_definitions el
    milestone_definitions := CMMNParser.parse_milestone_definitions el
    stage_definitions := buckets.2
    criteria_definitions := CMMNParser.parse_criteria_definitions el }

/-- `CMMNParser._parse_case_file_model`. -/
def CMMNParser.parse_case_file_model (el : XmlElem) : CaseFileModelB :=
  { id := Json.str (el.getD "id" "")
    case_file_items :=
      (findallNS el "caseFileItem").map CMMNParser.parse_case_file_item }

/-- `CMMNParser._parse_case`. -/
def CMMNParser.parse_case (el : XmlElem) : CaseB :=
  { id := Json.str (el.getD "id" "")
    name := optStr (el.get "name")
    documentation := .null
    case_file_model := (findNS el "caseFileModel").map CMMNParser.parse_case_file_model
    case_plan_model := (findNS el "casePlanModel").map CMMNParser.parse_case_plan_model
    case_roles :=
      ((findallNS el "caseRoles").flatMap fun cr => findallNS cr "role").map
        fun r => { id := Json.str (r.getD "id" ""), name := optStr (r.get "name") } }

/-- `CMMNParser._parse_xml_tree`: the root must be the namespace-qualified
`definitions` element (an exact tag comparison against
`\x7bNS\x7ddefinitions`). -/
def CMMNParser.parse_xml_tree (root : XmlElem) : Except PyErr CMMNDefinition :=
  if root.tag = nsTag "definitions" then
    .ok
      { target_namespace := optStr (root.get "targetNamespace")
        expression_language := optStr (root.get "expressionLanguage")
        exporter := optStr (root.get "exporter")
        exporter_version := optStr (root.get "exporterVersion")
        cases := (findallNS root "case").map CMMNParser.parse_case }
  else .error (.cmmnParseError "Root element must be 'definitions'")

/-- `CMMNParser.parse_xml_string`: the tokenizer outcome is the input; an
`ET.ParseError` is re-raised as
`CMMNParseError("Failed to parse CMMN XML: …")`. -/
def CMMNParser.parse_xml_string (tok : Except String XmlElem) :
    Except PyErr CMMNDefinition :=
  match tok with
  | .error e => .error (.cmmnParseError ("Failed to parse CMMN XML: " ++ e))
  | .ok root => CMMNParser.parse_xml_tree root

/-- `CMMNParser.parse_json_string`: decode (`json.loads` failures become
`CMMNParseError("Invalid JSON format: …")`), validate against `schema.json`,
then build the tree. -/
def CMMNParser.parse_json_string (cmmn_json : String) :
    Except PyErr CMMNDefinition := do
  let data ←
    match pyJsonLoads cmmn_json with
    | .ok v => .ok v
    | .error e => .error (.cmmnParseError ("Invalid JSON format: " ++ e))
  let _ ← CMMNParser.validate_json data
  CMMNParser.parse_json_data data

/-- The route `CMMNParser.parse_string` takes: the stripped text is parsed
as JSON exactly when it starts with `\x7b`, as XML otherwise (there is no
other branch and no error case in the dispatch). -/
inductive ParseRoute where
  | jsonRoute
  | xmlRoute
deriving DecidableEq

/-- The dispatch condition of `CMMNParser.parse_string` (lines 129–136):
`stripped = cmmn_text.strip()`, then `stripped.startswith("\x7b")` selects
the JSON path, anything else the XML path. -/
def CMMNParser.parse_string_route (cmmn_text : String) : ParseRoute :=
  if pyStartsWith (pyStrip cmmn_text) "\x7b" then .jsonRoute else .xmlRoute

/-- `CMMNParser.parse_string`: dispatch on the route; the XML tokenizer's
outcome on the text is supplied as `tok` (the tokenizer is external). -/
def CMMNParser.parse_string (cmmn_text : String)
    (tok : Except String XmlElem) : Except PyErr CMMNDefinition :=
  match CMMNParser.parse_string_route cmmn_text with
  | .jsonRoute => CMMNParser.parse_json_string cmmn_text
  | .xmlRoute => CMMNParser.parse_xml_string tok

/-- `parse_cmmn_json` (`cmmn_parser/__init__.py`): a dictionary argument is
serialized with `json.dumps` and handed to `parse_json_string`; a string
argument goes there directly. -/
def parse_cmmn_json : String ⊕ Json → Except PyErr CMMNDefinition
  | .inl s => CMMNParser.parse_json_string s
  | .inr d =>
    match d with
    | .obj kvs => CMMNParser.parse_json_string (Json.dumps (.obj kvs))
    | _ =>
      .error (.typeError "the JSON object must be str, bytes or bytearray")

/-! ### Claims about format detection and the XML error taxonomy -/

theorem beginsWith_nil (xs : List Char) : beginsWith xs [] = true := by
  cases xs <;> rfl

theorem beginsWith_refl (xs : List Char) : beginsWith xs xs = true := by
  induction xs with
  | nil => rfl
  | cons c cs ih => simp [beginsWith, ih]

theorem beginsWith_append_of {xs pat : List Char}
    (h : beginsWith xs pat = true) (ys : List Char) :
    beginsWith (xs ++ ys) pat = true := by
  induction pat generalizing xs with
  | nil => exact beginsWith_nil _
  | cons p ps ih =>
    cases xs with
    | nil => simp [beginsWith] at h
    | cons x xs' =>
      simp only [beginsWith, List.cons_append, Bool.and_eq_true] at h ⊢
      exact ⟨h.1, ih h.2⟩

/-- Claim C2, as stated, is false: with the auto-detection dispatch, an
input whose trimmed text starts with `[` is routed to the XML parser (the
claim says it is classified as JSON), and an input starting with a plain
letter is also routed to the XML parser (the claim says detection fails
with an unknown-format error; no such error exists in the dispatch). -/
theorem C2_counterexample :
    CMMNParser.parse_string_route "[1, 2]" = ParseRoute.xmlRoute ∧
      pyStartsWith (pyStrip "[1, 2]") "[" = true ∧
      CMMNParser.parse_string_route "plain text" = ParseRoute.xmlRoute := by
  exact ⟨rfl, rfl, rfl⟩

/-- Claim C2, amended to the code: the auto-detection dispatch of
`CMMNParser.parse_string` classifies the input as JSON exactly when the
whitespace-stripped text starts with `\x7b`; every other input — including
those starting with `[`, `<`, or any other character, and the empty string
— is routed to the XML parser.  No unknown-format error exists. -/
theorem C2_auto_detection (s : String) :
    (CMMNParser.parse_string_route s = ParseRoute.jsonRoute ↔
        pyStartsWith (pyStrip s) "\x7b" = true) ∧
      (CMMNParser.parse_string_route s = ParseRoute.xmlRoute ↔
        ¬pyStartsWith (pyStrip s) "\x7b" = true) := by
  unfold CMMNParser.parse_string_route
  by_cases h : pyStartsWith (pyStrip s) "\x7b" = true <;> simp [h]

/-- Witness for C2 at concrete inputs. -/
theorem C2_witness :
    CMMNParser.parse_string_route " \x7b\"a\": 1\x7d" = ParseRoute.jsonRoute ∧
      CMMNParser.parse_string_route "<?xml version=\"1.0\"?>" =
        ParseRoute.xmlRoute :=
  ⟨(C2_auto_detection " \x7b\"a\": 1\x7d").1.mpr (by decide),
   (C2_auto_detection "<?xml version=\"1.0\"?>").2.mpr (by decide)⟩

/-- Claim C3, as stated, is false: empty and whitespace-only inputs are not
rejected by a dedicated empty-content error; format detection runs, routes
them to the XML parser, and the failure surfaces as the generic
`CMMNParseError("Failed to parse CMMN XML: …")` wrapping the tokenizer's
complaint. -/
theorem C3_counterexample :
    CMMNParser.parse_string_route "" = ParseRoute.xmlRoute ∧
      CMMNParser.parse_string_route "  \n\t " = ParseRoute.xmlRoute ∧
      CMMNParser.parse_string ""
          (.error "no element found: line 1, column 0") =
        .error
          (.cmmnParseError
            "Failed to parse CMMN XML: no element found: line 1, column 0") :=
  ⟨rfl, rfl, rfl⟩

/-- Claim C3, amended to the code: an empty or whitespace-only input is not
specially handled; the auto-detection check routes it to the XML parser
path, which fails with the generic XML parse error (wrapping whatever the
tokenizer reported), not a dedicated empty-content error. -/
theorem C3_empty_input (s : String) (h : pyStrip s = "") (e : String) :
    CMMNParser.parse_string_route s = ParseRoute.xmlRoute ∧
      CMMNParser.parse_string s (.error e) =
        .error (.cmmnParseError ("Failed to parse CMMN XML: " ++ e)) := by
  have hr : CMMNParser.parse_string_route s = ParseRoute.xmlRoute := by
    unfold CMMNParser.parse_string_route
    rw [h]
    rfl
  refine ⟨hr, ?_⟩
  unfold CMMNParser.parse_string
  rw [hr]
  rfl

/-- Witness for C3 at the empty input. -/
theorem C3_witness :
    CMMNParser.parse_string_route "" = ParseRoute.xmlRoute ∧
      CMMNParser.parse_string ""
          (.error "no element found: line 1, column 0") =
        .error
          (.cmmnParseError
            "Failed to parse CMMN XML: no element found: line 1, column 0") :=
  C3_empty_input "" rfl "no element found: line 1, column 0"

/-- Claim C8, as stated, is false on `XMLParser.parse`: its root check is
`root.tag.endswith("definitions")`, a suffix test, so a well-formed document
whose root's namespace-stripped tag is `notdefinitions` — not
`definitions` — is accepted instead of failing with a structure error. -/
theorem C8_counterexample :
    XMLParser.parse (.ok (XmlElem.mk "notdefinitions" [] none [])) =
        .ok (XMLParser.parse_definitions
          (XmlElem.mk "notdefinitions" [] none [])) ∧
      stripNamespace "notdefinitions" ≠ "definitions" := by
  refine ⟨rfl, ?_⟩
  decide

/-- Claim C8, amended to the code: a tokenizer failure surfaces as
`CMMNParsingError("Invalid XML syntax: …")`; a well-formed document whose
root tag does not end with `definitions` surfaces as
`CMMNParsingError("Root element must be 'definitions', got '…'")`; the two
kinds are distinguishable from each other by their fixed message openings,
and from I/O failures by exception class (`CMMNFileError`). -/
theorem C8_xml_error_kinds (e : String) (el : XmlElem)
    (h : pyEndsWith el.tag "definitions" = false) :
    XMLParser.parse (.error e) =
        .error (.cmmnParsingError ("Invalid XML syntax: " ++ e)) ∧
      XMLParser.parse (.ok el) =
        .error (.cmmnParsingError
          ("Root element must be 'definitions', got '" ++ el.tag ++ "'")) ∧
      pyStartsWith ("Invalid XML syntax: " ++ e) "Invalid XML syntax: " =
        true ∧
      pyStartsWith ("Root element must be 'definitions', got '" ++ el.tag ++
          "'") "Invalid XML syntax: " = false ∧
      pyStartsWith ("Root element must be 'definitions', got '" ++ el.tag ++
          "'") "Root element must be 'definitions'" = true ∧
      pyStartsWith ("Invalid XML syntax: " ++ e)
          "Root element must be 'definitions'" = false ∧
      (∀ m, PyErr.cmmnParsingError ("Invalid XML syntax: " ++ e) ≠
        PyErr.cmmnFileError m) ∧
      ∀ m,
        PyErr.cmmnParsingError
            ("Root element must be 'definitions', got '" ++ el.tag ++ "'") ≠
          PyErr.cmmnFileError m := by
  refine ⟨rfl, ?_, ?_, ?_, ?_, ?_, fun m => by simp, fun m => by simp⟩
  · simp only [XMLParser.parse, h, Bool.false_eq_true, if_false]
  · unfold pyStartsWith
    rw [String.data_append]
    exact beginsWith_append_of (beginsWith_refl _) _
  · unfold pyStartsWith
    rw [String.data_append, String.data_append, List.append_assoc]
    rfl
  · unfold pyStartsWith
    rw [String.data_append, String.data_append, List.append_assoc]
    exact beginsWith_append_of (by rfl) _
  · unfold pyStartsWith
    rw [String.data_append]
    rfl

/-- Witness for C8 at a concrete malformed document and a concrete wrong
root. -/
theorem C8_witness :
    XMLParser.parse (.error "mismatched tag: line 3, column 2") =
        .error
          (.cmmnParsingError
            "Invalid XML syntax: mismatched tag: line 3, column 2") ∧
      XMLParser.parse (.ok (XmlElem.mk "process" [] none [])) =
        .error
          (.cmmnParsingError
            "Root element must be 'definitions', got 'process'") := by
  have h :=
    C8_xml_error_kinds "mismatched tag: line 3, column 2"
      (XmlElem.mk "process" [] none []) (by decide)
  exact ⟨h.1, h.2.1⟩

/-! ### Claims about the JSON builders, validation and the façade -/

/-- Claim C4, as stated, is false: the task object `\x7b"performer": "bob"\x7d`
with no `type` key does not parse to a `HumanTask` — the explicit-field
builder (`JSONParser._parse_task`) reads the discriminator default `"task"`
and yields a generic base `Task` (the performer is dropped), while the
structural builder (`CMMNParser._parse_json_task`) raises `KeyError: 'id'`
because the object has no `id`. -/
theorem C4_counterexample :
    JSONParser.parse_task (Json.obj [("performer", .str "bob")]) =
        .ok (.base (TaskBase.mk .null .null .null (.bool true) (.str "task"))) ∧
      CMMNParser.parse_json_task (Json.obj [("performer", .str "bob")]) =
        .error (.keyError "id") := ⟨rfl, rfl⟩

/-- Claim C4, amended to the code: (1) in the structural builder
(`CMMNParser._parse_json_task`), a task object carrying an `id` and a
`performer` parses to a `HumanTask` with that performer (any `type` key is
ignored); (2) in the explicit-discriminator builder
(`JSONParser._parse_task`), `type = "processTask"` yields a `ProcessTask`
regardless of which other keys are present; (3) the structural builder
defaults to `HumanTask` (performer `None`) when an `id` is present and none
of `performer`/`processRef`/`caseRef` is. -/
theorem C4_task_variant_discrimination
    (d1 d2 d3 : Json) (kvs1 kvs2 kvs3 : List (String × Json))
    (idv1 idv3 p1 : Json)
    (h1o : d1 = .obj kvs1) (h1id : Json.lookupKey kvs1 "id" = some idv1)
    (h1p : Json.lookupKey kvs1 "performer" = some p1)
    (h2o : d2 = .obj kvs2)
    (h2t : Json.lookupKey kvs2 "type" = some (.str "processTask"))
    (h3o : d3 = .obj kvs3) (h3id : Json.lookupKey kvs3 "id" = some idv3)
    (h3p : Json.lookupKey kvs3 "performer" = none)
    (h3r : Json.lookupKey kvs3 "processRef" = none)
    (h3c : Json.lookupKey kvs3 "caseRef" = none) :
    CMMNParser.parse_json_task d1 =
        .ok (.human ⟨idv1, d1.get "name", d1.get "documentation",
          d1.getD "isBlocking" (.bool true)⟩ p1) ∧
      JSONParser.parse_task d2 =
        .ok (.process ⟨d2.get "id", d2.get "name", .null,
          d2.getD "isBlocking" (.bool true), .str "processTask"⟩
          (d2.get "processRef")) ∧
      CMMNParser.parse_json_task d3 =
        .ok (.human ⟨idv3, d3.get "name", d3.get "documentation",
          d3.getD "isBlocking" (.bool true)⟩ .null) := by
  subst h1o h2o h3o
  refine ⟨?_, ?_, ?_⟩
  · simp only [CMMNParser.parse_json_task, Json.index, Json.find, h1id, bind,
      Except.bind, Json.hasKey, h1p, Option.isSome_some, if_true, Json.get,
      Json.getD]
  · simp only [JSONParser.parse_task, Json.getD, Json.find, h2t, Json.eqStr,
      String.reduceEq, decide_False, decide_True, Bool.false_eq_true,
      if_false, if_true, Json.get]
  · simp only [CMMNParser.parse_json_task, Json.index, Json.find, h3id, bind,
      Except.bind, Json.hasKey, h3p, h3r, h3c, Option.isSome_none,
      Bool.false_eq_true, if_false, Json.get, Json.getD]

/-- Witness for C4: the first object also shows the structural path ignores
`type`; the second carries an extra `performer` key and still yields a
`ProcessTask` on the explicit path. -/
theorem C4_witness :
    CMMNParser.parse_json_task
        (Json.obj [("id", .str "t1"), ("performer", .str "bob")]) =
        .ok (.human (TaskBaseB.mk (.str "t1") .null .null (.bool true))
          (.str "bob")) ∧
      JSONParser.parse_task
          (Json.obj [("id", .str "t2"), ("type", .str "processTask"),
            ("processRef", .str "p1"), ("performer", .str "bob")]) =
        .ok (.process
          (TaskBase.mk (.str "t2") .null .null (.bool true)
            (.str "processTask")) (.str "p1")) ∧
      CMMNParser.parse_json_task (Json.obj [("id", .str "t3")]) =
        .ok (.human (TaskBaseB.mk (.str "t3") .null .null (.bool true))
          .null) :=
  C4_task_variant_discrimination
    (Json.obj [("id", .str "t1"), ("performer", .str "bob")])
    (Json.obj [("id", .str "t2"), ("type", .str "processTask"),
      ("processRef", .str "p1"), ("performer", .str "bob")])
    (Json.obj [("id", .str "t3")])
    [("id", .str "t1"), ("performer", .str "bob")]
    [("id", .str "t2"), ("type", .str "processTask"),
      ("processRef", .str "p1"), ("performer", .str "bob")]
    [("id", .str "t3")]
    (.str "t1") (.str "t3") (.str "bob") rfl rfl rfl rfl rfl rfl rfl rfl rfl rfl

/-- Claim C6: parsing the JSON document
`\x7b"cases": [\x7b"id": "C1"\x7d]\x7d` with the JSON tree builder succeeds
and yields a definitions tree with exactly one `Case`, id `"C1"`, and an
absent case plan model (and case file model). -/
theorem C6_minimal_json_document :
    JSONParser.parse (Json.obj [("cases", .arr [.obj [("id", .str "C1")]])]) =
      .ok
        { id := .null, name := .null, target_namespace := .null,
          expression_language := .null, exporter := .null,
          exporter_version := .null, author := .null, creation_date := .null,
          imports := [], case_file_item_definitions := [],
          cases :=
            [{ id := .str "C1", name := .null, description := .null,
               case_plan_model := none, case_file_model := none }],
          processes := [], decisions := [], extension_elements := none } :=
  rfl

/-- Claim C7: whenever `CMMNParser._parse_json_criterion` returns a
criterion, it is an `ExitCriterion` exactly when the object's `type` field
equals `"exit"`, an `EntryCriterion` otherwise, and never a
`ReactivationCriterion`. -/
theorem C7_criterion_discrimination (data : Json) (c : CriterionB)
    (h : CMMNParser.parse_json_criterion data = .ok c) :
    ((∃ i n d sr, c = .exit i n d sr) ↔ (data.get "type").eqStr "exit" = true) ∧
      ∀ i n d sr, c ≠ .reactivation i n d sr := by
  cases data with
  | obj kvs =>
    simp only [CMMNParser.parse_json_criterion, Json.index, Json.find] at h
    cases hfind : Json.lookupKey kvs "id" with
    | none => rw [hfind] at h; exact Except.noConfusion h
    | some idv =>
      rw [hfind] at h
      by_cases ht : (Json.obj kvs |>.get "type").eqStr "exit" = true
      · simp only [bind, Except.bind, ht, if_true] at h
        cases h
        refine ⟨iff_of_true ⟨_, _, _, _, rfl⟩ ht, ?_⟩
        intro i n d sr hne
        exact CriterionB.noConfusion hne
      · simp only [bind, Except.bind, ht, if_false] at h
        cases h
        refine ⟨iff_of_false ?_ ht, ?_⟩
        · rintro ⟨i, n, d, sr, hc⟩
          exact CriterionB.noConfusion hc
        · intro i n d sr hne
          exact CriterionB.noConfusion hne
  | null => exact Except.noConfusion h
  | bool b => exact Except.noConfusion h
  | num n => exact Except.noConfusion h
  | str s => exact Except.noConfusion h
  | arr xs => exact Except.noConfusion h

/-- Witness for C7 at a concrete exit criterion. -/
theorem C7_witness :
    ((∃ i n d sr,
        CriterionB.exit (.str "c1") .null .null .null =
          CriterionB.exit i n d sr) ↔
      ((Json.obj [("id", .str "c1"), ("type", .str "exit")]).get "type").eqStr
          "exit" = true) ∧
      ∀ i n d sr,
        CriterionB.exit (.str "c1") .null .null .null ≠
          .reactivation i n d sr :=
  C7_criterion_discrimination
    (Json.obj [("id", .str "c1"), ("type", .str "exit")])
    (.exit (.str "c1") .null .null .null) rfl

/-- Claim C5, as stated, is false for the inline-schema validator
(`CMMNValidator.validate_json`, `validator.py`): its schema has no
`required` lists and no enums, so a document whose case lacks `id` and
carries out-of-enumeration `multiplicity` and `standardEvent` values
validates successfully. -/
theorem C5_counterexample :
    CMMNValidator.validate_json
        (Json.obj
          [("cases",
            .arr
              [.obj
                [("name", .str "No Id"), ("multiplicity", .str "Bogus"),
                 ("standardEvent", .str "bogus_event")]])]) = .ok true := rfl

/-- A definitions document whose single case lacks the `id` key. -/
def doc5_missing_id (nm : String) : Json :=
  Json.obj
    [("definitions", .obj [("cases", .arr [.obj [("name", .str nm)]])])]

/-- A definitions document carrying the given `multiplicity` value on a
case file item. -/
def doc5_multiplicity (m : String) : Json :=
  Json.obj
    [("definitions", .obj
      [("cases", .arr
        [.obj
          [("id", .str "TestCase"),
           ("caseFileModel", .obj
             [("id", .str "FileModel1"),
              ("caseFileItems", .arr
                [.obj [("id", .str "Item1"),
                       ("multiplicity", .str m)]])])]])])]

/-- A definitions document carrying the given `standardEvent` value on a
sentry's on-part. -/
def doc5_standard_event (ev : String) : Json :=
  Json.obj
    [("definitions", .obj
      [("cases", .arr
        [.obj
          [("id", .str "TestCase"),
           ("casePlanModel", .obj
             [("id", .str "Plan1"),
              ("sentries", .arr
                [.obj
                  [("id", .str "Sentry1"),
                   ("onParts", .arr
                     [.obj [("id", .str "OnPart1"),
                            ("standardEvent", .str ev)]])]])])]])])]

/-- Claim C5, amended to the code: the `schema.json`-based validation
(`validate_cmmn_json`, also used by `CMMNParser.validate_json`) rejects a
case object missing `id` with a `CMMNParseError` whose message names the
missing field, rejects any `multiplicity` outside the fixed enumeration,
and rejects any `standardEvent` outside the fixed event set; the separate
inline-schema validator (`CMMNValidator`) enforces none of these. -/
theorem C5_schema_json_validation (nm m ev : String)
    (hm : m ∉ multiplicityEnum) (hev : ev ∉ standardEventEnum) :
    validate_cmmn_json (doc5_missing_id nm) =
        .error
          (.cmmnParseError
            "JSON validation failed: 'id' is a required property") ∧
      validate_cmmn_json (doc5_multiplicity m) =
        .error
          (.cmmnParseError
            ("JSON validation failed: " ++
              ("'" ++ m ++ "' is not one of the permitted values"))) ∧
      validate_cmmn_json (doc5_standard_event ev) =
        .error
          (.cmmnParseError
            ("JSON validation failed: " ++
              ("'" ++ ev ++ "' is not one of the permitted values"))) := by
  refine ⟨rfl, ?_, ?_⟩
  · have hs : schemaCheck cmmnSchemaJsonEnv pyRecursionLimit cmmnSchemaJson
        (doc5_multiplicity m) =
        .error ("'" ++ m ++ "' is not one of the permitted values") :=
      (show schemaCheck cmmnSchemaJsonEnv pyRecursionLimit cmmnSchemaJson
          (doc5_multiplicity m) =
          (if m ∈ multiplicityEnum then Except.ok ()
           else
             Except.error ("'" ++ m ++ "' is not one of the permitted values"))
        from rfl).trans (if_neg hm)
    unfold validate_cmmn_json
    rw [hs]
  · have hs : schemaCheck cmmnSchemaJsonEnv pyRecursionLimit cmmnSchemaJson
        (doc5_standard_event ev) =
        .error ("'" ++ ev ++ "' is not one of the permitted values") :=
      (show schemaCheck cmmnSchemaJsonEnv pyRecursionLimit cmmnSchemaJson
          (doc5_standard_event ev) =
          (if ev ∈ standardEventEnum then Except.ok ()
           else
             Except.error
               ("'" ++ ev ++ "' is not one of the permitted values"))
        from rfl).trans (if_neg hev)
    unfold validate_cmmn_json
    rw [hs]

/-- Witness for C5 at the concrete offending values. -/
theorem C5_witness :
    validate_cmmn_json (doc5_missing_id "Test Case") =
        .error
          (.cmmnParseError
            "JSON validation failed: 'id' is a required property") ∧
      validate_cmmn_json (doc5_multiplicity "InvalidValue") =
        .error
          (.cmmnParseError
            ("JSON validation failed: " ++
              ("'" ++ "InvalidValue" ++
                "' is not one of the permitted values"))) ∧
      validate_cmmn_json (doc5_standard_event "invalid_event") =
        .error
          (.cmmnParseError
            ("JSON validation failed: " ++
              ("'" ++ "invalid_event" ++
                "' is not one of the permitted values"))) :=
  C5_schema_json_validation "Test Case" "InvalidValue" "invalid_event"
    (by decide) (by decide)

/-- Claim C9: an XML plan item without the space-separated
`entryCriteriaRefs`/`exitCriteriaRefs` attributes gets empty reference
lists (never null), and a JSON plan item object without the collection
keys gets empty lists in both JSON builders. -/
theorem C9_absent_reference_lists (el : XmlElem)
    (h1 : el.get "entryCriteriaRefs" = none)
    (h2 : el.get "exitCriteriaRefs" = none)
    (kvs : List (String × Json))
    (he : Json.lookupKey kvs "entryCriteria" = none)
    (hx : Json.lookupKey kvs "exitCriteria" = none)
    (hr : Json.lookupKey kvs "reactivationCriteria" = none)
    (kvsa : List (String × Json))
    (hea : Json.lookupKey kvsa "entryCriteria" = none)
    (hxa : Json.lookupKey kvsa "exitCriteria" = none) :
    (CMMNParser.parse_plan_item el).entry_criteria = .arr [] ∧
      (CMMNParser.parse_plan_item el).exit_criteria = .arr [] ∧
      (CMMNParser.parse_plan_item el).reactivation_criteria = .arr [] ∧
      (∀ pi, CMMNParser.parse_json_plan_item (.obj kvs) = .ok pi →
          pi.entry_criteria = .arr [] ∧ pi.exit_criteria = .arr [] ∧
            pi.reactivation_criteria = .arr []) ∧
      ∀ pi, JSONParser.parse_plan_item (.obj kvsa) = .ok pi →
        pi.entry_criteria = .arr [] ∧ pi.exit_criteria = .arr [] := by
  refine ⟨?_, ?_, rfl, ?_, ?_⟩
  · simp [CMMNParser.parse_plan_item, XmlElem.getD, h1]
  · simp [CMMNParser.parse_plan_item, XmlElem.getD, h2]
  · intro pi hpi
    simp only [CMMNParser.parse_json_plan_item, Json.index, Json.find] at hpi
    cases hfind : Json.lookupKey kvs "id" with
    | none => rw [hfind] at hpi; exact Except.noConfusion hpi
    | some idv =>
      rw [hfind] at hpi
      by_cases hic : Json.hasKey (.obj kvs) "itemControl" = true
      · simp only [bind, Except.bind, hic, if_true] at hpi
        cases hctl :
            CMMNParser.parse_json_item_control
              ((Json.obj kvs).get "itemControl") with
        | error e => rw [hctl] at hpi; exact Except.noConfusion hpi
        | ok ctl =>
          rw [hctl] at hpi
          simp only [Except.map] at hpi
          cases hpi
          simp [Json.getD, Json.find, he, hx, hr]
      · simp only [bind, Except.bind, hic, Bool.false_eq_true, if_false] at hpi
        cases hpi
        simp [Json.getD, Json.find, he, hx, hr]
  · intro pi hpi
    simp only [JSONParser.parse_plan_item] at hpi
    cases hpi
    simp [Json.getD, Json.find, hea, hxa]

/-- Witness for C9 at a concrete attribute-less plan item. -/
theorem C9_witness :
    (CMMNParser.parse_plan_item
        (XmlElem.mk "planItem" [("id", "p1")] none [])).entry_criteria =
        .arr [] ∧
      (CMMNParser.parse_plan_item
          (XmlElem.mk "planItem" [("id", "p1")] none [])).exit_criteria =
        .arr [] ∧
      (PlanItemB.mk (.str "p1") .null .null .null (.arr []) (.arr [])
          (.arr []) none).entry_criteria = .arr [] ∧
      (PlanItem.mk .null .null .null .null (.arr []) (.arr [])).entry_criteria =
        .arr [] := by
  have h :=
    C9_absent_reference_lists (XmlElem.mk "planItem" [("id", "p1")] none [])
      rfl rfl [("id", .str "p1")] rfl rfl rfl [] rfl rfl
  exact
    ⟨h.1, h.2.1,
     (h.2.2.2.1
        (PlanItemB.mk (.str "p1") .null .null .null (.arr []) (.arr [])
          (.arr []) none) rfl).1,
     (h.2.2.2.2
        (PlanItem.mk .null .null .null .null (.arr []) (.arr [])) rfl).1⟩

/-- Claim C10: for every dictionary `d`, the convenience entry point
`parse_cmmn_json` returns the same definitions tree on `d` as on the JSON
text `json.dumps(d)` — the dictionary branch serializes and delegates to
the very same `parse_json_string` call. -/
theorem C10_parse_cmmn_json_dict_eq_string (kvs : List (String × Json)) :
    parse_cmmn_json (.inr (.obj kvs)) =
      parse_cmmn_json (.inl (Json.dumps (.obj kvs))) := rfl

/-- Witness for C10 at a concrete dictionary. -/
theorem C10_witness :
    parse_cmmn_json
        (.inr (Json.obj
          [("definitions",
            .obj [("cases", .arr [.obj [("id", .str "C1")]])])])) =
      parse_cmmn_json
        (.inl (Json.dumps (Json.obj
          [("definitions",
            .obj [("cases", .arr [.obj [("id", .str "C1")]])])]))) :=
  C10_parse_cmmn_json_dict_eq_string
    [("definitions", .obj [("cases", .arr [.obj [("id", .str "C1")]])])]
